import Mathlib

/-!
# Verification of the voice-AI call bridge

A shallow embedding, in Lean 4, of the core of the
`elastic-converational-VoIP-agent-core` repository:

* `src/voice_ai_system/services/audio_bridge.py` — `AudioBridgeSession`
  (frame ingestion with early backpressure, the receive loop's
  turn/interruption handling) and `AudioBridgeManager` (active and
  pre-warmed session registries, claim/handoff, expiry tasks);
* `src/voice_ai_system/workflows/call_workflow.py` — `VoiceCallWorkflow`
  (signals, the connection-establishment loop, cleanup);
* `src/voice_ai_system/utils/audio.py` — mu-law companding and the
  format/rate conversion pipeline.

Modelling conventions:

* Python dicts keyed by strings become association lists
  (`List (String × _)`) with `alookup` / `aerase` / `aset`.
* Object identity of a Python `AudioBridgeSession` is modelled by a
  `uid : Nat` field allocated from a manager-wide counter; in-place
  mutation becomes a functional update that keeps the `uid`.
* `asyncio` effects that matter to the statements (codec conversion,
  enqueueing, activity invocations) are recorded in explicit effect
  traces; timing (timestamps, sleeps) is not modelled.
* Exception control flow becomes `Except`; a Python `try`-block whose
  handler swallows the error becomes a `match` that keeps the state
  reached at the raise point.
* NumPy float arithmetic in the companding code is modelled over `ℝ`,
  with `astype` truncation toward zero made explicit.
-/

/-! ## Association-list model of Python dicts -/

/-- Lookup in an association list (model of `d.get(k)` / `k in d`). -/
def alookup {α : Type} (l : List (String × α)) (k : String) : Option α :=
  match l with
  | [] => none
  | p :: t => if p.1 = k then some p.2 else alookup t k

/-- Remove a key (model of `d.pop(k, None)`'s removal effect). -/
def aerase {α : Type} (l : List (String × α)) (k : String) : List (String × α) :=
  match l with
  | [] => []
  | p :: t => if p.1 = k then aerase t k else p :: aerase t k

/-- Insert or overwrite a binding (model of `d[k] = v`). -/
def aset {α : Type} (l : List (String × α)) (k : String) (v : α) :
    List (String × α) :=
  aerase l k ++ [(k, v)]

theorem alookup_append {α : Type} (l m : List (String × α)) (k : String) :
    alookup (l ++ m) k = ((alookup l k).or (alookup m k)) := by
  induction l with
  | nil => simp [alookup]
  | cons p t ih =>
    by_cases h : p.1 = k <;> simp [alookup, h, ih]

theorem alookup_aerase_self {α : Type} (l : List (String × α)) (k : String) :
    alookup (aerase l k) k = none := by
  induction l with
  | nil => simp [alookup, aerase]
  | cons p t ih =>
    by_cases h : p.1 = k <;> simp [alookup, aerase, h, ih]

theorem alookup_aerase_ne {α : Type} (l : List (String × α)) (k j : String)
    (h : j ≠ k) : alookup (aerase l k) j = alookup l j := by
  induction l with
  | nil => simp [aerase]
  | cons p t ih =>
    have hkj : ¬ k = j := fun hk => h hk.symm
    by_cases hp : p.1 = k
    · have hpj : ¬ p.1 = j := fun hj => h (hj ▸ hp)
      simp [alookup, aerase, hp, hpj, ih, hkj]
    · by_cases hpj : p.1 = j <;> simp [alookup, aerase, hp, hpj, ih, hkj, h]

theorem alookup_aset_self {α : Type} (l : List (String × α)) (k : String) (v : α) :
    alookup (aset l k v) k = some v := by
  simp [aset, alookup_append, alookup_aerase_self, alookup]

theorem alookup_aset_ne {α : Type} (l : List (String × α)) (k j : String) (v : α)
    (h : j ≠ k) : alookup (aset l k v) j = alookup l j := by
  have hkj : ¬ k = j := fun hk => h hk.symm
  simp [aset, alookup_append, alookup_aerase_ne l k j h, alookup, hkj]

/-! ## Data model shared by the bridge -/

/-- `Speaker` enum from `models/call.py`. -/
inductive Speaker
  | user
  | ai
  | system
deriving DecidableEq, Repr

/-- A transcript segment; only the fields the claims touch (speaker, text)
are kept, timestamps/confidence are not modelled. -/
structure TranscriptSegment where
  speaker : Speaker
  text : String
deriving DecidableEq, Repr

/-- A converted PCM frame sitting in `out_queue` (a `types.Blob` payload). -/
abbrev Blob := List Int

/-- VAD configuration dict (`AudioBridgeSession._vad_config`). -/
structure VadConfig where
  disabled : Bool
  start_sensitivity : String
  end_sensitivity : String
  prefix_padding_ms : Nat
  silence_duration_ms : Nat
deriving DecidableEq, Repr

/-- Defaults set in `AudioBridgeSession.__init__`. -/
def defaultVadConfig : VadConfig :=
  { disabled := false
    start_sensitivity := "HIGH"
    end_sensitivity := "LOW"
    prefix_padding_ms := 200
    silence_duration_ms := 500 }

/-- A partial VAD dict passed to `start` (keys may be absent). -/
structure VadOverride where
  disabled : Option Bool := none
  start_sensitivity : Option String := none
  end_sensitivity : Option String := none
  prefix_padding_ms : Option Nat := none
  silence_duration_ms : Option Nat := none
deriving DecidableEq, Repr

/-- `self._vad_config.update(vad_config)`. -/
def VadConfig.updateWith (c : VadConfig) (o : VadOverride) : VadConfig :=
  { disabled := o.disabled.getD c.disabled
    start_sensitivity := o.start_sensitivity.getD c.start_sensitivity
    end_sensitivity := o.end_sensitivity.getD c.end_sensitivity
    prefix_padding_ms := o.prefix_padding_ms.getD c.prefix_padding_ms
    silence_duration_ms := o.silence_duration_ms.getD c.silence_duration_ms }

/-! ## AudioBridgeSession -/

/-- The mutable state of one `AudioBridgeSession`.  `uid` models Python
object identity (allocated from `ManagerState.nextUid`); `startCount`
counts invocations of `start`; timing fields of the source are not
modelled. -/
structure AudioBridgeSession where
  uid : Nat
  session_id : String
  call_id : String
  out_queue : List Blob
  audio_in_queue : List String
  transcript_buffer : List TranscriptSegment
  active : Bool
  greeting : String
  system_prompt : Option String
  vad_config : VadConfig
  total_frames_sent : Nat
  total_frames_received : Nat
  dropped_frames : Nat
  max_queue_depth : Nat
  queue_depth_sum : Nat
  queue_depth_samples : Nat
  ai_turn_count : Nat
  user_turn_count : Nat
  interruption_count : Nat
  last_speaker : Option Speaker
  startCount : Nat
deriving DecidableEq, Repr

/-- `AudioBridgeSession.__init__(session_id, call_id)`. -/
def mkSession (uid : Nat) (session_id call_id : String) : AudioBridgeSession :=
  { uid := uid
    session_id := session_id
    call_id := call_id
    out_queue := []
    audio_in_queue := []
    transcript_buffer := []
    active := true
    greeting := ""
    system_prompt := none
    vad_config := defaultVadConfig
    total_frames_sent := 0
    total_frames_received := 0
    dropped_frames := 0
    max_queue_depth := 0
    queue_depth_sum := 0
    queue_depth_samples := 0
    ai_turn_count := 0
    user_turn_count := 0
    interruption_count := 0
    last_speaker := none
    startCount := 0 }

/-- `AudioBridgeSession.start(greeting, system_prompt, vad_config)`:
records the greeting/prompt, merges a provided VAD override into the
defaults and launches the session task (task spawn itself not modelled). -/
def AudioBridgeSession.start (s : AudioBridgeSession) (greeting : String)
    (system_prompt : Option String) (vad_config : Option VadOverride) :
    AudioBridgeSession :=
  { s with
    greeting := greeting
    system_prompt := system_prompt
    vad_config :=
      match vad_config with
      | some o => s.vad_config.updateWith o
      | none => s.vad_config
    startCount := s.startCount + 1 }

/-- `out_queue = asyncio.Queue(maxsize=100)`. -/
def outQueueMaxsize : Nat := 100

/-- Observable effects of `send_audio_from_twilio`. -/
inductive SessionEff
  | convert
  | enqueueOut
deriving DecidableEq, Repr

/-- `AudioBridgeSession.send_audio_from_twilio(audio_data)`.

`conv` stands for `twilio_to_gemini` as run in the thread-pool executor
(its result, or the exception it raised, as an `Except`).
`queueAfterAwait` is the content of `out_queue` at the moment the
`await loop.run_in_executor(...)` resumes: other coroutines may have
enqueued or drained frames while the conversion ran, which is exactly
why the source re-checks fullness with `put_nowait` / `QueueFull`.
In a purely sequential execution `queueAfterAwait = s.out_queue`.

The whole body sits in a `try` whose handler only logs, so every branch
returns a state instead of raising. -/
def send_audio_from_twilio (conv : String → Except String Blob)
    (s : AudioBridgeSession) (audio_data : String)
    (queueAfterAwait : List Blob) :
    AudioBridgeSession × List SessionEff :=
  if s.active = false then (s, [])
  else
    let s1 := { s with total_frames_sent := s.total_frames_sent + 1 }
    let queue_depth := s1.out_queue.length
    -- `queue_depth / maxsize > 0.8`, exact over the integers
    if 8 * outQueueMaxsize < 10 * queue_depth then
      ({ s1 with dropped_frames := s1.dropped_frames + 1 }, [])
    else
      match conv audio_data with
      | .error _ => (s1, [.convert])
      | .ok pcm_audio =>
        let s2 := { s1 with out_queue := queueAfterAwait }
        if s2.out_queue.length < outQueueMaxsize then
          let q := s2.out_queue ++ [pcm_audio]
          ({ s2 with
              out_queue := q
              max_queue_depth := max s2.max_queue_depth q.length
              queue_depth_sum := s2.queue_depth_sum + q.length
              queue_depth_samples := s2.queue_depth_samples + 1 },
            [.convert, .enqueueOut])
        else
          ({ s2 with dropped_frames := s2.dropped_frames + 1 }, [.convert])

example :
    (send_audio_from_twilio (fun _ => .ok [1]) (mkSession 0 "s" "c") "x"
      (mkSession 0 "s" "c").out_queue).1.out_queue = [[1]] := by decide

example :
    (send_audio_from_twilio (fun _ => .ok [1])
      { mkSession 0 "s" "c" with out_queue := List.replicate 81 [0] } "x"
      (List.replicate 81 ([0] : Blob))).1.dropped_frames = 1 := by decide

/-! ## The receive loop's per-response handling -/

/-- `transcript_buffer: deque(maxlen=50)` — appending to a full ring
evicts the oldest entry. -/
def transcriptPush (buf : List TranscriptSegment) (x : TranscriptSegment) :
    List TranscriptSegment :=
  if buf.length < 50 then buf ++ [x] else buf.tail ++ [x]

/-- `response.server_content` fields read by `_receive_audio`. -/
structure ServerContent where
  interrupted : Bool := false
  turn_complete : Bool := false
deriving DecidableEq, Repr

/-- One item of the `async for response in turn` stream, restricted to
the fields `_receive_audio` reads.  `data` is the raw PCM bytes of an
audio chunk (`some []` models an empty — hence falsy — payload). -/
structure LiveResponse where
  data : Option (List Int) := none
  text : Option String := none
  input_transcription : Option String := none
  output_transcription : Option String := none
  server_content : Option ServerContent := none
  go_away : Bool := false
deriving DecidableEq, Repr

/-- Python truthiness of an optional bytes/str field. -/
def truthy {α : Type} [DecidableEq α] (o : Option (List α)) : Bool :=
  match o with
  | none => false
  | some l => l ≠ []

/-- Truthiness of an optional string. -/
def truthyStr (o : Option String) : Bool :=
  match o with
  | none => false
  | some t => t ≠ ""

/-- The body of `async for response in turn` inside
`AudioBridgeSession._receive_audio`.

`conv2` stands for `gemini_to_twilio` as run in the executor.  An audio
chunk is converted and appended to `audio_in_queue` and the iteration
`continue`s, skipping all remaining handling; text and transcription
events update turn counters and the transcript ring; a `server_content`
with `interrupted` drains `audio_in_queue` and bumps the interruption
counter, while a plain `turn_complete` only logs. -/
def handle_audio_data (conv2 : List Int → Except String String)
    (s : AudioBridgeSession) (d : List Int) : AudioBridgeSession :=
  match conv2 d with
  | .ok twilio_audio =>
    { s with
      audio_in_queue := s.audio_in_queue ++ [twilio_audio]
      total_frames_received := s.total_frames_received + 1 }
  | .error _ => s

/-- `if text := response.text:` block of `_receive_audio`. -/
def handle_text (s : AudioBridgeSession) (o : Option String) :
    AudioBridgeSession :=
  match o with
  | some t =>
    if t ≠ "" then
      let s0 :=
        if s.last_speaker ≠ some Speaker.ai then
          { s with
            ai_turn_count := s.ai_turn_count + 1
            last_speaker := some Speaker.ai }
        else s
      { s0 with
        transcript_buffer := transcriptPush s0.transcript_buffer ⟨Speaker.ai, t⟩ }
    else s
  | none => s

/-- `input_transcription` block of `_receive_audio`. -/
def handle_input_transcription (s : AudioBridgeSession) (o : Option String) :
    AudioBridgeSession :=
  match o with
  | some t =>
    if t ≠ "" then
      let s0 :=
        if s.last_speaker ≠ some Speaker.user then
          { s with
            user_turn_count := s.user_turn_count + 1
            last_speaker := some Speaker.user }
        else s
      { s0 with
        transcript_buffer := transcriptPush s0.transcript_buffer ⟨Speaker.user, t⟩ }
    else s
  | none => s

/-- `output_transcription` block of `_receive_audio`. -/
def handle_output_transcription (s : AudioBridgeSession) (o : Option String) :
    AudioBridgeSession :=
  match o with
  | some t =>
    if t ≠ "" then
      { s with
        transcript_buffer := transcriptPush s.transcript_buffer ⟨Speaker.ai, t⟩ }
    else s
  | none => s

/-- `server_content` block of `_receive_audio`: an interruption drains
`audio_in_queue` (the `while not empty: get_nowait()` loop) and bumps
the counter; a plain turn completion only logs. -/
def handle_server_content (s : AudioBridgeSession) (o : Option ServerContent) :
    AudioBridgeSession :=
  match o with
  | some sc =>
    if sc.interrupted then
      { s with
        interruption_count := s.interruption_count + 1
        audio_in_queue := [] }
    else s
  | none => s

def process_response (conv2 : List Int → Except String String)
    (s : AudioBridgeSession) (r : LiveResponse) : AudioBridgeSession :=
  if s.active = false then s
  else if truthy r.data then
    match r.data with
    | some d => handle_audio_data conv2 s d
    | none => s
  else
    handle_server_content
      (handle_output_transcription
        (handle_input_transcription (handle_text s r.text)
          r.input_transcription)
        r.output_transcription)
      r.server_content

example :
    (process_response (fun _ => .ok "x")
      { mkSession 0 "s" "c" with audio_in_queue := ["a", "b"] }
      { server_content := some { interrupted := true } }).audio_in_queue = [] := by
  decide

example :
    (process_response (fun _ => .ok "x")
      { mkSession 0 "s" "c" with audio_in_queue := ["a", "b"] }
      { server_content := some { turn_complete := true } }).audio_in_queue
      = ["a", "b"] := by
  decide

/-! ## AudioBridgeManager -/

/-- Status of a tracked `_prewarm_cleanup_tasks` entry. -/
inductive TaskStatus
  | pending
  | done
deriving DecidableEq, Repr

/-- The `AudioBridgeManager` registries.  `nextUid` allocates session
object identities; `cancelled_tasks` and `stopped_uids` are ghost logs
recording which expiry tasks were cancelled and which sessions had
`stop()` called on them. -/
structure ManagerState where
  sessions : List (String × AudioBridgeSession) := []
  prewarmed_sessions : List (String × AudioBridgeSession) := []
  prewarm_cleanup_tasks : List (String × TaskStatus) := []
  nextUid : Nat := 0
  cancelled_tasks : List String := []
  stopped_uids : List Nat := []
deriving DecidableEq, Repr

/-- `AudioBridgeSession.stop()` as seen from the manager: flips
`active`; the ghost log records the uid of the stopped session. -/
def managerStop (st : ManagerState) (s : AudioBridgeSession) : ManagerState :=
  { st with stopped_uids := st.stopped_uids ++ [s.uid] }

/-- Pop a cleanup task and cancel it if it exists and is not done
(`cleanup_task = self._prewarm_cleanup_tasks.pop(wf, None); if ... cancel()`). -/
def popAndCancelTask (st : ManagerState) (workflow_id : String) : ManagerState :=
  match alookup st.prewarm_cleanup_tasks workflow_id with
  | some ts =>
    { st with
      prewarm_cleanup_tasks := aerase st.prewarm_cleanup_tasks workflow_id
      cancelled_tasks :=
        if ts = TaskStatus.pending then st.cancelled_tasks ++ [workflow_id]
        else st.cancelled_tasks }
  | none => st

/-- `AudioBridgeManager.create_session`. -/
def create_session (st : ManagerState) (session_id call_id : String)
    (greeting : String) (system_prompt : Option String)
    (vad_config : Option VadOverride) : ManagerState × AudioBridgeSession :=
  let session := (mkSession st.nextUid session_id call_id).start greeting
    system_prompt vad_config
  ({ st with
      nextUid := st.nextUid + 1
      sessions := aset st.sessions session_id session },
    session)

/-- `AudioBridgeManager.prewarm_session`: a logged no-op when an entry
already exists, otherwise starts a session keyed by the workflow id
under the pre-warm registry and schedules a pending expiry task. -/
def prewarm_session (st : ManagerState) (workflow_id : String)
    (greeting : String) (system_prompt : Option String)
    (vad_config : Option VadOverride) : ManagerState :=
  if (alookup st.prewarmed_sessions workflow_id).isSome then st
  else
    let session := (mkSession st.nextUid ("prewarm-" ++ workflow_id)
      workflow_id).start greeting system_prompt vad_config
    { st with
      nextUid := st.nextUid + 1
      prewarmed_sessions := aset st.prewarmed_sessions workflow_id session
      prewarm_cleanup_tasks :=
        aset st.prewarm_cleanup_tasks workflow_id TaskStatus.pending }

/-- `AudioBridgeManager.get_or_create_session`: claim the pre-warmed
session for `workflow_id` if one exists (cancel its expiry task, re-key
it, move it to the active registry), otherwise `create_session`. -/
def get_or_create_session (st : ManagerState)
    (session_id workflow_id call_id : String) (greeting : String)
    (system_prompt : Option String) (vad_config : Option VadOverride) :
    ManagerState × AudioBridgeSession :=
  match alookup st.prewarmed_sessions workflow_id with
  | some session =>
    let st1 := { st with
      prewarmed_sessions := aerase st.prewarmed_sessions workflow_id }
    let st2 := popAndCancelTask st1 workflow_id
    let claimed := { session with session_id := session_id, call_id := call_id }
    ({ st2 with sessions := aset st2.sessions session_id claimed }, claimed)
  | none => create_session st session_id call_id greeting system_prompt vad_config

/-- `AudioBridgeManager.cleanup_prewarm`. -/
def cleanup_prewarm (st : ManagerState) (workflow_id : String) :
    ManagerState × Bool :=
  let st1 := popAndCancelTask st workflow_id
  match alookup st1.prewarmed_sessions workflow_id with
  | some session =>
    (managerStop
      { st1 with prewarmed_sessions := aerase st1.prewarmed_sessions workflow_id }
      session,
      true)
  | none => (st1, false)

/-- The body of `_cleanup_prewarmed_session` after its sleep (the expiry
firing): evict and stop the entry if it is still pre-warmed.  The done
callback removes the task from the tracking dict. -/
def expiry_fire (st : ManagerState) (workflow_id : String) : ManagerState :=
  let st0 := { st with
    prewarm_cleanup_tasks := aerase st.prewarm_cleanup_tasks workflow_id }
  match alookup st0.prewarmed_sessions workflow_id with
  | some session =>
    managerStop
      { st0 with prewarmed_sessions := aerase st0.prewarmed_sessions workflow_id }
      session
  | none => st0

/-- `AudioBridgeManager.close_session`. -/
def close_session (st : ManagerState) (session_id : String) : ManagerState :=
  match alookup st.sessions session_id with
  | some session =>
    managerStop { st with sessions := aerase st.sessions session_id } session
  | none => st

/-- `AudioBridgeManager.close_all_sessions`. -/
def close_all_sessions (st : ManagerState) : ManagerState :=
  let st1 := (st.sessions.map (fun p => p.1)).foldl close_session st
  let st2 := (st1.prewarmed_sessions.map (fun p => p.1)).foldl
    (fun acc wf => (cleanup_prewarm acc wf).1) st1
  { st2 with
    prewarm_cleanup_tasks := []
    cancelled_tasks := st2.cancelled_tasks ++
      (st2.prewarm_cleanup_tasks.filter (fun p => p.2 = TaskStatus.pending)).map
        (fun p => p.1) }

/-! ## Helper lemmas for the manager theorems -/

theorem aerase_of_alookup_none {α : Type} (l : List (String × α)) (k : String)
    (h : alookup l k = none) : aerase l k = l := by
  induction l with
  | nil => simp [aerase]
  | cons p t ih =>
    by_cases hp : p.1 = k
    · simp [alookup, hp] at h
    · simp [alookup, hp] at h
      simp [aerase, hp, ih h]

theorem handle_text_preserves (s : AudioBridgeSession) (o : Option String) :
    (handle_text s o).audio_in_queue = s.audio_in_queue ∧
    (handle_text s o).interruption_count = s.interruption_count := by
  cases o with
  | none => simp [handle_text]
  | some t =>
    simp only [handle_text]
    split_ifs <;> simp

theorem handle_input_transcription_preserves (s : AudioBridgeSession)
    (o : Option String) :
    (handle_input_transcription s o).audio_in_queue = s.audio_in_queue ∧
    (handle_input_transcription s o).interruption_count = s.interruption_count := by
  cases o with
  | none => simp [handle_input_transcription]
  | some t =>
    simp only [handle_input_transcription]
    split_ifs <;> simp

theorem handle_output_transcription_preserves (s : AudioBridgeSession)
    (o : Option String) :
    (handle_output_transcription s o).audio_in_queue = s.audio_in_queue ∧
    (handle_output_transcription s o).interruption_count = s.interruption_count := by
  cases o with
  | none => simp [handle_output_transcription]
  | some t =>
    simp only [handle_output_transcription]
    split_ifs <;> simp

/-! ## Claim theorems for the session -/

/-- **C1** — `send_audio_from_twilio` on an active session: (1) if the
outbound-to-AI queue is more than 80% full at entry the frame is dropped
before any codec conversion, the drop counter is incremented and the
queue is untouched; (2) otherwise the converted frame is enqueued
non-blocking, and if the queue is full at enqueue time the frame is
dropped and counted instead; (3) the queue depth never exceeds the
capacity of 100; (4) a conversion error is swallowed (the frame is
skipped, nothing is enqueued and nothing raises to the caller — the
embedding is a total function). -/
theorem sendFromTelephony_backpressure
    (conv : String → Except String Blob) (s : AudioBridgeSession)
    (audio : String) (qa : List Blob) (hActive : s.active = true) :
    (8 * outQueueMaxsize < 10 * s.out_queue.length →
      (send_audio_from_twilio conv s audio qa).1.dropped_frames =
          s.dropped_frames + 1 ∧
        (send_audio_from_twilio conv s audio qa).1.out_queue = s.out_queue ∧
        SessionEff.convert ∉ (send_audio_from_twilio conv s audio qa).2) ∧
    (¬ 8 * outQueueMaxsize < 10 * s.out_queue.length →
      ∀ pcm, conv audio = .ok pcm →
        (qa.length < outQueueMaxsize →
          (send_audio_from_twilio conv s audio qa).1.out_queue = qa ++ [pcm] ∧
            SessionEff.enqueueOut ∈ (send_audio_from_twilio conv s audio qa).2) ∧
        (¬ qa.length < outQueueMaxsize →
          (send_audio_from_twilio conv s audio qa).1.out_queue = qa ∧
            (send_audio_from_twilio conv s audio qa).1.dropped_frames =
              s.dropped_frames + 1)) ∧
    (s.out_queue.length ≤ outQueueMaxsize → qa.length ≤ outQueueMaxsize →
      (send_audio_from_twilio conv s audio qa).1.out_queue.length ≤
        outQueueMaxsize) ∧
    (∀ e, conv audio = .error e →
      ¬ 8 * outQueueMaxsize < 10 * s.out_queue.length →
      (send_audio_from_twilio conv s audio qa).1.out_queue = s.out_queue ∧
        (send_audio_from_twilio conv s audio qa).1.dropped_frames =
          s.dropped_frames) := by
  refine ⟨?_, ?_, ?_, ?_⟩
  · intro h
    simp [send_audio_from_twilio, hActive, h]
  · intro h pcm hconv
    refine ⟨?_, ?_⟩
    · intro hq
      simp [send_audio_from_twilio, hActive, h, hconv, hq]
    · intro hq
      simp [send_audio_from_twilio, hActive, h, hconv, hq]
  · intro hs hq
    simp only [send_audio_from_twilio, hActive]
    split
    · simpa using hs
    · split
      · simpa using hs
      · split
        · simpa using hs
        · split
          · simp
            omega
          · simpa using hq
  · intro e hconv h
    simp [send_audio_from_twilio, hActive, h, hconv]

/-- Concrete instantiation of `sendFromTelephony_backpressure`: an
active fresh session enqueues a successfully converted frame. -/
theorem sendFromTelephony_backpressure_witness :
    (send_audio_from_twilio (fun _ => .ok [7]) (mkSession 0 "sid" "cid") "f"
        []).1.out_queue = [[7]] ∧
      SessionEff.enqueueOut ∈
        (send_audio_from_twilio (fun _ => .ok [7]) (mkSession 0 "sid" "cid") "f"
          []).2 :=
  ((sendFromTelephony_backpressure (fun _ => .ok [7]) (mkSession 0 "sid" "cid")
    "f" [] rfl).2.1 (by decide) [7] rfl).1 (by decide)

/-- **C4** — in the receive loop, for a processed event carrying
`server_content` (an event with no audio payload, which would `continue`
past the signal handling): an interruption drains the inbound-from-AI
queue to empty and increments the interruption counter by exactly one;
a turn-complete without interruption leaves the queue unchanged. -/
theorem receive_interruption_handling
    (conv2 : List Int → Except String String) (s : AudioBridgeSession)
    (r : LiveResponse) (sc : ServerContent) (hActive : s.active = true)
    (hData : truthy r.data = false) (hSc : r.server_content = some sc) :
    (sc.interrupted = true →
      (process_response conv2 s r).audio_in_queue = [] ∧
        (process_response conv2 s r).interruption_count =
          s.interruption_count + 1) ∧
    (sc.interrupted = false →
      (process_response conv2 s r).audio_in_queue = s.audio_in_queue) := by
  have h1 := handle_text_preserves s r.text
  have h2 := handle_input_transcription_preserves (handle_text s r.text)
    r.input_transcription
  have h3 := handle_output_transcription_preserves
    (handle_input_transcription (handle_text s r.text) r.input_transcription)
    r.output_transcription
  constructor
  · intro hInt
    simp [process_response, hActive, hData, hSc, handle_server_content, hInt,
      h3.2, h2.2, h1.2]
  · intro hInt
    simp [process_response, hActive, hData, hSc, handle_server_content, hInt,
      h3.1, h2.1, h1.1]

/-- Concrete instantiation of `receive_interruption_handling`: an
interruption event empties a two-element inbound queue and counts one
interruption. -/
theorem receive_interruption_handling_witness :
    (process_response (fun _ => .ok "x")
        { mkSession 0 "s" "c" with audio_in_queue := ["a", "b"] }
        { server_content := some { interrupted := true } }).audio_in_queue =
        [] ∧
      (process_response (fun _ => .ok "x")
        { mkSession 0 "s" "c" with audio_in_queue := ["a", "b"] }
        { server_content := some { interrupted := true } }).interruption_count =
        1 :=
  (receive_interruption_handling (fun _ => .ok "x")
    { mkSession 0 "s" "c" with audio_in_queue := ["a", "b"] }
    { server_content := some { interrupted := true } }
    { interrupted := true } rfl rfl rfl).1 rfl

/-! ## Claim theorems for the manager -/

/-- **C2** — claiming a pre-warmed session with `get_or_create_session`:
(a) the returned session is the very object that was pre-warmed (same
`uid`; no new allocation happens), (b) it is re-keyed to the supplied
session id and call id, (c) it is removed from the pre-warm registry and
inserted into the active registry, and (d) the pending expiry task is
cancelled and the expiry path, were it still to fire, would stop
nothing and change nothing. -/
theorem prewarm_claim_handoff (st : ManagerState)
    (session_id workflow_id call_id greeting : String)
    (system_prompt : Option String) (vad_config : Option VadOverride)
    (ps : AudioBridgeSession)
    (hPre : alookup st.prewarmed_sessions workflow_id = some ps) :
    ((get_or_create_session st session_id workflow_id call_id greeting
          system_prompt vad_config).2.uid = ps.uid ∧
      (get_or_create_session st session_id workflow_id call_id greeting
          system_prompt vad_config).1.nextUid = st.nextUid) ∧
    ((get_or_create_session st session_id workflow_id call_id greeting
          system_prompt vad_config).2.session_id = session_id ∧
      (get_or_create_session st session_id workflow_id call_id greeting
          system_prompt vad_config).2.call_id = call_id) ∧
    (alookup (get_or_create_session st session_id workflow_id call_id greeting
          system_prompt vad_config).1.prewarmed_sessions workflow_id = none ∧
      alookup (get_or_create_session st session_id workflow_id call_id greeting
          system_prompt vad_config).1.sessions session_id =
        some (get_or_create_session st session_id workflow_id call_id greeting
          system_prompt vad_config).2) ∧
    (alookup (get_or_create_session st session_id workflow_id call_id greeting
          system_prompt vad_config).1.prewarm_cleanup_tasks workflow_id =
        none ∧
      expiry_fire (get_or_create_session st session_id workflow_id call_id
          greeting system_prompt vad_config).1 workflow_id =
        (get_or_create_session st session_id workflow_id call_id greeting
          system_prompt vad_config).1) := by
  have hasetPre :
      ∀ (l : List (String × AudioBridgeSession)) (k : String) v,
        alookup (aset l k v) k = some v := fun l k v => alookup_aset_self l k v
  constructor
  · constructor
    · simp [get_or_create_session, hPre]
    · simp [get_or_create_session, hPre, popAndCancelTask]
      cases h : alookup st.prewarm_cleanup_tasks workflow_id <;> simp
  · refine ⟨⟨?_, ?_⟩, ⟨?_, ?_⟩, ?_, ?_⟩
    · simp [get_or_create_session, hPre]
    · simp [get_or_create_session, hPre]
    · simp [get_or_create_session, hPre, popAndCancelTask]
      cases h : alookup st.prewarm_cleanup_tasks workflow_id <;>
        simp [alookup_aerase_self]
    · simp [get_or_create_session, hPre, popAndCancelTask]
      cases h : alookup st.prewarm_cleanup_tasks workflow_id <;>
        simp [alookup_aset_self]
    · simp [get_or_create_session, hPre, popAndCancelTask]
      cases h : alookup st.prewarm_cleanup_tasks workflow_id <;>
        simp [alookup_aerase_self, h]
    · have hTasks :
        alookup (get_or_create_session st session_id workflow_id call_id
          greeting system_prompt vad_config).1.prewarm_cleanup_tasks
          workflow_id = none := by
        simp [get_or_create_session, hPre, popAndCancelTask]
        cases h : alookup st.prewarm_cleanup_tasks workflow_id <;>
          simp [alookup_aerase_self, h]
      have hPre2 :
        alookup (get_or_create_session st session_id workflow_id call_id
          greeting system_prompt vad_config).1.prewarmed_sessions
          workflow_id = none := by
        simp [get_or_create_session, hPre, popAndCancelTask]
        cases h : alookup st.prewarm_cleanup_tasks workflow_id <;>
          simp [alookup_aerase_self]
      simp [expiry_fire, hPre2, aerase_of_alookup_none _ _ hTasks]

/-- Concrete instantiation of `prewarm_claim_handoff`: pre-warm a
session for workflow `"wf"`, claim it as `"sid"`/`"cid"`, and read the
handoff facts off the theorem. -/
theorem prewarm_claim_handoff_witness :
    ((get_or_create_session (prewarm_session {} "wf" "hi" (some "sys") none)
          "sid" "wf" "cid" "g2" none none).2.uid =
        ((mkSession 0 "prewarm-wf" "wf").start "hi" (some "sys") none).uid ∧
      (get_or_create_session (prewarm_session {} "wf" "hi" (some "sys") none)
          "sid" "wf" "cid" "g2" none none).1.nextUid =
        (prewarm_session {} "wf" "hi" (some "sys") none).nextUid) ∧
    ((get_or_create_session (prewarm_session {} "wf" "hi" (some "sys") none)
          "sid" "wf" "cid" "g2" none none).2.session_id = "sid" ∧
      (get_or_create_session (prewarm_session {} "wf" "hi" (some "sys") none)
          "sid" "wf" "cid" "g2" none none).2.call_id = "cid") ∧
    (alookup (get_or_create_session
          (prewarm_session {} "wf" "hi" (some "sys") none)
          "sid" "wf" "cid" "g2" none none).1.prewarmed_sessions "wf" = none ∧
      alookup (get_or_create_session
          (prewarm_session {} "wf" "hi" (some "sys") none)
          "sid" "wf" "cid" "g2" none none).1.sessions "sid" =
        some (get_or_create_session
          (prewarm_session {} "wf" "hi" (some "sys") none)
          "sid" "wf" "cid" "g2" none none).2) ∧
    (alookup (get_or_create_session
          (prewarm_session {} "wf" "hi" (some "sys") none)
          "sid" "wf" "cid" "g2" none none).1.prewarm_cleanup_tasks "wf" =
        none ∧
      expiry_fire (get_or_create_session
          (prewarm_session {} "wf" "hi" (some "sys") none)
          "sid" "wf" "cid" "g2" none none).1 "wf" =
        (get_or_create_session (prewarm_session {} "wf" "hi" (some "sys") none)
          "sid" "wf" "cid" "g2" none none).1) :=
  prewarm_claim_handoff (prewarm_session {} "wf" "hi" (some "sys") none)
    "sid" "wf" "cid" "g2" none none
    ((mkSession 0 "prewarm-wf" "wf").start "hi" (some "sys") none)
    (by decide)

/-- **C10** — claiming a pre-warmed session discards the `greeting`,
`system_prompt` and `vad_config` arguments of `get_or_create_session`:
`start()` is not invoked again (the start count is unchanged) and the
returned session keeps the configuration it was pre-warmed with. -/
theorem prewarm_claim_keeps_config (st : ManagerState)
    (session_id workflow_id call_id greeting : String)
    (system_prompt : Option String) (vad_config : Option VadOverride)
    (ps : AudioBridgeSession)
    (hPre : alookup st.prewarmed_sessions workflow_id = some ps) :
    (get_or_create_session st session_id workflow_id call_id greeting
        system_prompt vad_config).2.greeting = ps.greeting ∧
    (get_or_create_session st session_id workflow_id call_id greeting
        system_prompt vad_config).2.system_prompt = ps.system_prompt ∧
    (get_or_create_session st session_id workflow_id call_id greeting
        system_prompt vad_config).2.vad_config = ps.vad_config ∧
    (get_or_create_session st session_id workflow_id call_id greeting
        system_prompt vad_config).2.startCount = ps.startCount := by
  simp [get_or_create_session, hPre]

/-- Concrete instantiation of `prewarm_claim_keeps_config`: the session
pre-warmed with greeting `"hi"` keeps it even though the claim passes
greeting `"g2"`. -/
theorem prewarm_claim_keeps_config_witness :
    (get_or_create_session (prewarm_session {} "wf" "hi" (some "sys") none)
        "sid" "wf" "cid" "g2" none none).2.greeting = "hi" ∧
      (get_or_create_session (prewarm_session {} "wf" "hi" (some "sys") none)
        "sid" "wf" "cid" "g2" none none).2.system_prompt = some "sys" ∧
      (get_or_create_session (prewarm_session {} "wf" "hi" (some "sys") none)
        "sid" "wf" "cid" "g2" none none).2.vad_config = defaultVadConfig ∧
      (get_or_create_session (prewarm_session {} "wf" "hi" (some "sys") none)
        "sid" "wf" "cid" "g2" none none).2.startCount = 1 :=
  prewarm_claim_keeps_config (prewarm_session {} "wf" "hi" (some "sys") none)
    "sid" "wf" "cid" "g2" none none
    ((mkSession 0 "prewarm-wf" "wf").start "hi" (some "sys") none)
    (by decide)

/-! ## Registry disjointness (C8) -/

/-- Each identifier keys at most one of the two registries. -/
def RegistryKeysDisjoint (st : ManagerState) : Prop :=
  ∀ k, (alookup st.sessions k).isSome →
    (alookup st.prewarmed_sessions k).isSome → False

theorem alookup_aerase_isSome {α : Type} (l : List (String × α)) (k j : String)
    (h : (alookup (aerase l k) j).isSome) : (alookup l j).isSome := by
  by_cases hj : j = k
  · subst hj
    rw [alookup_aerase_self] at h
    simp at h
  · rwa [alookup_aerase_ne l k j hj] at h

theorem popAndCancelTask_registries (st : ManagerState) (wf : String) :
    (popAndCancelTask st wf).sessions = st.sessions ∧
    (popAndCancelTask st wf).prewarmed_sessions = st.prewarmed_sessions := by
  unfold popAndCancelTask
  cases alookup st.prewarm_cleanup_tasks wf <;> simp

theorem disjoint_prewarm_session (st : ManagerState) (wf greeting : String)
    (system_prompt : Option String) (vad_config : Option VadOverride)
    (h : RegistryKeysDisjoint st) (hNone : alookup st.sessions wf = none) :
    RegistryKeysDisjoint (prewarm_session st wf greeting system_prompt
      vad_config) := by
  unfold prewarm_session
  split
  · exact h
  · intro k h1 h2
    dsimp only at h1 h2
    by_cases hk : k = wf
    · subst hk
      simp [hNone] at h1
    · rw [alookup_aset_ne _ _ _ _ hk] at h2
      exact h k h1 h2

theorem disjoint_create_session (st : ManagerState) (sid cid greeting : String)
    (system_prompt : Option String) (vad_config : Option VadOverride)
    (h : RegistryKeysDisjoint st)
    (hNone : alookup st.prewarmed_sessions sid = none) :
    RegistryKeysDisjoint (create_session st sid cid greeting system_prompt
      vad_config).1 := by
  intro k h1 h2
  unfold create_session at h1 h2
  dsimp only at h1 h2
  by_cases hk : k = sid
  · subst hk
    simp [hNone] at h2
  · rw [alookup_aset_ne _ _ _ _ hk] at h1
    exact h k h1 h2

theorem disjoint_get_or_create_session (st : ManagerState)
    (sid wf cid greeting : String) (system_prompt : Option String)
    (vad_config : Option VadOverride) (h : RegistryKeysDisjoint st)
    (hSide : alookup st.prewarmed_sessions sid = none ∨ sid = wf) :
    RegistryKeysDisjoint (get_or_create_session st sid wf cid greeting
      system_prompt vad_config).1 := by
  unfold get_or_create_session
  cases hPre : alookup st.prewarmed_sessions wf with
  | none =>
    have hNone : alookup st.prewarmed_sessions sid = none := by
      cases hSide with
      | inl hh => exact hh
      | inr hh => exact hh ▸ hPre
    exact disjoint_create_session st sid cid greeting system_prompt vad_config
      h hNone
  | some ps =>
    intro k h1 h2
    dsimp only at h1 h2
    rw [(popAndCancelTask_registries _ _).1] at h1
    rw [(popAndCancelTask_registries _ _).2] at h2
    dsimp only at h1 h2
    by_cases hk : k = sid
    · subst hk
      by_cases hsw : k = wf
      · subst hsw
        rw [alookup_aerase_self] at h2
        simp at h2
      · rw [alookup_aerase_ne _ _ _ hsw] at h2
        cases hSide with
        | inl hh => rw [hh] at h2; simp at h2
        | inr hh => exact hsw hh
    · rw [alookup_aset_ne _ _ _ _ hk] at h1
      exact h k h1 (alookup_aerase_isSome _ _ _ h2)

theorem disjoint_cleanup_prewarm (st : ManagerState) (wf : String)
    (h : RegistryKeysDisjoint st) :
    RegistryKeysDisjoint (cleanup_prewarm st wf).1 := by
  unfold cleanup_prewarm
  have hreg := popAndCancelTask_registries st wf
  cases hPre : alookup (popAndCancelTask st wf).prewarmed_sessions wf with
  | none =>
    simp only [hPre]
    intro k h1 h2
    rw [hreg.1] at h1
    rw [hreg.2] at h2
    exact h k h1 h2
  | some ps =>
    simp only [hPre]
    intro k h1 h2
    dsimp only [managerStop] at h1 h2
    rw [hreg.1] at h1
    have h2a := alookup_aerase_isSome _ _ _ h2
    rw [hreg.2] at h2a
    exact h k h1 h2a

theorem disjoint_expiry_fire (st : ManagerState) (wf : String)
    (h : RegistryKeysDisjoint st) : RegistryKeysDisjoint (expiry_fire st wf) := by
  unfold expiry_fire
  cases hPre : alookup
      ({ st with
        prewarm_cleanup_tasks := aerase st.prewarm_cleanup_tasks wf } :
        ManagerState).prewarmed_sessions wf with
  | none =>
    simp only [hPre]
    exact h
  | some ps =>
    simp only [hPre]
    intro k h1 h2
    dsimp only [managerStop] at h1 h2
    exact h k h1 (alookup_aerase_isSome _ _ _ h2)

theorem disjoint_close_session (st : ManagerState) (sid : String)
    (h : RegistryKeysDisjoint st) : RegistryKeysDisjoint (close_session st sid) := by
  unfold close_session
  cases hS : alookup st.sessions sid with
  | none =>
    simp only [hS]
    exact h
  | some s =>
    simp only [hS]
    intro k h1 h2
    dsimp only [managerStop] at h1 h2
    exact h k (alookup_aerase_isSome _ _ _ h1) h2

theorem disjoint_foldl_close_session (keys : List String) (st : ManagerState)
    (h : RegistryKeysDisjoint st) :
    RegistryKeysDisjoint (keys.foldl close_session st) := by
  induction keys generalizing st with
  | nil => exact h
  | cons k t ih => exact ih _ (disjoint_close_session st k h)

theorem disjoint_foldl_cleanup_prewarm (keys : List String) (st : ManagerState)
    (h : RegistryKeysDisjoint st) :
    RegistryKeysDisjoint
      (keys.foldl (fun acc wf => (cleanup_prewarm acc wf).1) st) := by
  induction keys generalizing st with
  | nil => exact h
  | cons k t ih => exact ih _ (disjoint_cleanup_prewarm st k h)

theorem disjoint_close_all_sessions (st : ManagerState)
    (h : RegistryKeysDisjoint st) :
    RegistryKeysDisjoint (close_all_sessions st) := by
  unfold close_all_sessions
  intro k h1 h2
  dsimp only at h1 h2
  exact disjoint_foldl_cleanup_prewarm _ _
    (disjoint_foldl_close_session _ _ h) k h1 h2

/-- **C8 (counterexample)** — the claimed invariant is violated by a
sequence of the listed operations: pre-warm workflow id `"w"`, then
`create_session` with session id `"w"`; afterwards `"w"` keys both the
active and the pre-warmed registry at once. -/
theorem registry_disjointness_cex :
    (alookup (create_session (prewarm_session {} "w" "" none none) "w" "w" ""
        none none).1.sessions "w").isSome ∧
      (alookup (create_session (prewarm_session {} "w" "" none none) "w" "w" ""
        none none).1.prewarmed_sessions "w").isSome := by
  decide

/-- **C8 (amended)** — each call identifier keys at most one of the two
registries, provided sessions are never created or claimed under an
identifier that currently keys the pre-warm registry, and pre-warms
never target an identifier with an active session (the call sites
guarantee both: active ids are telephony stream SIDs, pre-warm ids are
workflow ids); and `prewarm_session` on an identifier that already has
a pre-warm entry is a strict no-op (no new session, both registries —
indeed the whole manager state — unchanged). -/
theorem registry_disjointness_amended :
    (∀ st wf greeting system_prompt vad_config,
      (alookup st.prewarmed_sessions wf).isSome →
        prewarm_session st wf greeting system_prompt vad_config = st) ∧
    (∀ st wf greeting system_prompt vad_config, RegistryKeysDisjoint st →
      alookup st.sessions wf = none →
        RegistryKeysDisjoint (prewarm_session st wf greeting system_prompt
          vad_config)) ∧
    (∀ st sid cid greeting system_prompt vad_config, RegistryKeysDisjoint st →
      alookup st.prewarmed_sessions sid = none →
        RegistryKeysDisjoint (create_session st sid cid greeting system_prompt
          vad_config).1) ∧
    (∀ st sid wf cid greeting system_prompt vad_config,
      RegistryKeysDisjoint st →
      (alookup st.prewarmed_sessions sid = none ∨ sid = wf) →
        RegistryKeysDisjoint (get_or_create_session st sid wf cid greeting
          system_prompt vad_config).1) ∧
    (∀ st wf, RegistryKeysDisjoint st →
      RegistryKeysDisjoint (cleanup_prewarm st wf).1) ∧
    (∀ st wf, RegistryKeysDisjoint st →
      RegistryKeysDisjoint (expiry_fire st wf)) ∧
    (∀ st sid, RegistryKeysDisjoint st →
      RegistryKeysDisjoint (close_session st sid)) ∧
    (∀ st, RegistryKeysDisjoint st →
      RegistryKeysDisjoint (close_all_sessions st)) := by
  refine ⟨?_, disjoint_prewarm_session, disjoint_create_session,
    disjoint_get_or_create_session, disjoint_cleanup_prewarm,
    disjoint_expiry_fire, disjoint_close_session,
    disjoint_close_all_sessions⟩
  intro st wf greeting system_prompt vad_config h
  unfold prewarm_session
  simp [h]

/-- Concrete instantiation of `registry_disjointness_amended`: the
empty manager stays disjoint after a pre-warm, and a second pre-warm of
the same id changes nothing. -/
theorem registry_disjointness_amended_witness :
    RegistryKeysDisjoint (prewarm_session {} "w" "hello" none none) ∧
      prewarm_session (prewarm_session {} "w" "hello" none none) "w" "x" none
        none = prewarm_session {} "w" "hello" none none :=
  ⟨registry_disjointness_amended.2.1 {} "w" "hello" none none
      (fun k h1 _ => by simp [alookup] at h1) (by decide),
    registry_disjointness_amended.1 _ "w" "x" none none (by decide)⟩

/-! ## VoiceCallWorkflow -/

/-- `CallStatus` enum from `models/call.py`. -/
inductive CallStatus
  | initiated
  | ringing
  | in_progress
  | completed
  | failed
  | no_answer
  | busy
  | canceled
deriving DecidableEq, Repr

/-- The string `.value` of a `CallStatus` member. -/
def CallStatus.value : CallStatus → String
  | .initiated => "initiated"
  | .ringing => "ringing"
  | .in_progress => "in_progress"
  | .completed => "completed"
  | .failed => "failed"
  | .no_answer => "no_answer"
  | .busy => "busy"
  | .canceled => "canceled"

/-- `status_mapping` dict of `call_status_changed`. -/
def status_mapping (status : String) : Option CallStatus :=
  if status = "initiated" then some .initiated
  else if status = "ringing" then some .ringing
  else if status = "answered" then some .in_progress
  else if status = "in-progress" then some .in_progress
  else if status = "completed" then some .completed
  else if status = "busy" then some .busy
  else if status = "no-answer" then some .no_answer
  else if status = "failed" then some .failed
  else if status = "canceled" then some .canceled
  else none

/-- The Twilio statuses treated as call termination in
`call_status_changed` and in the connection loop. -/
def terminalTwilioStatuses : List String :=
  ["completed", "busy", "no-answer", "failed", "canceled"]

/-- The state a `VoiceCallWorkflow` instance mutates.  Timestamps are
reduced to set/unset flags; the rest mirrors `__init__`. -/
structure WorkflowState where
  workflow_id : String
  run_id : String
  call_id : Option String
  call_sid : Option String
  phone_number : String
  status : CallStatus
  started_at : Bool
  ended_at : Bool
  stream_sid : Option String
  streaming_active : Bool
  transcript_segments : List TranscriptSegment
  greeting : String
  system_prompt : Option String
  call_ended : Bool
  max_duration_reached : Bool
deriving DecidableEq, Repr

/-- `VoiceCallWorkflow.__init__`. -/
def initWorkflowState (workflow_id run_id : String) : WorkflowState :=
  { workflow_id := workflow_id
    run_id := run_id
    call_id := none
    call_sid := none
    phone_number := ""
    status := .initiated
    started_at := false
    ended_at := false
    stream_sid := none
    streaming_active := false
    transcript_segments := []
    greeting := ""
    system_prompt := none
    call_ended := false
    max_duration_reached := false }

/-- The workflow's signals.  Handlers only mutate workflow state — they
invoke no activities, so the embedding gives them no effect trace;
cleanup activities are invoked solely from `run`. -/
inductive Signal
  | streaming_started (stream_sid : Option String)
  | streaming_ended
  | transcripts_available (transcripts : List TranscriptSegment)
  | call_status_changed (status : String)
  | set_call_sid (call_sid : String)
deriving DecidableEq, Repr

/-- The five `@workflow.signal` handlers of `VoiceCallWorkflow`. -/
def applySignal (s : WorkflowState) : Signal → WorkflowState
  | .streaming_started sid =>
    { s with stream_sid := sid, streaming_active := true }
  | .streaming_ended =>
    if s.call_ended then s
    else { s with streaming_active := false, call_ended := true }
  | .transcripts_available ts =>
    { s with transcript_segments := s.transcript_segments ++ ts }
  | .call_status_changed v =>
    let s1 :=
      match status_mapping v with
      | some m => { s with status := m }
      | none => s
    if terminalTwilioStatuses.contains v then
      if s1.call_ended then s1 else { s1 with call_ended := true }
    else s1
  | .set_call_sid sid => { s with call_sid := some sid }

/-- Signals delivered while the workflow awaits (applied in order,
one at a time — Temporal's actor-style delivery). -/
def applySignals (s : WorkflowState) (sigs : List Signal) : WorkflowState :=
  sigs.foldl applySignal s

/-- `CallWorkflowInput` (fields the workflow reads). -/
structure CallWorkflowInput where
  phone_number : String
  greeting : String
  system_prompt : Option String
  max_duration_seconds : Nat
deriving DecidableEq, Repr

/-- `CallWorkflowResult` (fields derived from state by `_build_result`;
timestamps/durations are not modelled). -/
structure CallWorkflowResult where
  status : CallStatus
  phone_number : String
  call_sid : Option String
  total_transcript_segments : Nat
deriving DecidableEq, Repr

/-- `VoiceCallWorkflow._build_result`. -/
def buildResult (s : WorkflowState) : CallWorkflowResult :=
  { status := s.status
    phone_number := s.phone_number
    call_sid := s.call_sid
    total_transcript_segments := s.transcript_segments.length }

/-- Activity invocations recorded by the run. -/
inductive Eff
  | create_call_record
  | create_session_record
  | initiate_twilio_call
  | get_twilio_call_status (call_sid : String)
  | terminate_twilio_call (call_sid : String)
  | save_transcript_batch (n : Nat)
  | update_call_record (status : String)
  | cleanup_session_record (final_status : String) (ttl : Nat)
deriving DecidableEq, Repr

deriving instance DecidableEq for Except

/-- Environment of one connection-check round: the signals delivered
during the 12-second wait, and what `get_twilio_call_status` would
return (post-retry outcome) if polled. -/
structure RoundEnv where
  sigs : List Signal
  poll : Except String String
deriving DecidableEq, Repr

/-- Post-retry outcomes of every activity the run may invoke, plus the
signals delivered during each wait. -/
structure RunEnv where
  create_call_record : Except String String
  create_session_record : Except String Unit
  initiate_twilio_call : Except String String
  round1 : RoundEnv
  round2 : RoundEnv
  round3 : RoundEnv
  monitor_sigs : List Signal
  terminate_twilio_call : Except String Unit
  save_transcript_batch : Except String Unit
  update_call_record : Except String Unit
  cleanup_session_record : Except String Unit
deriving DecidableEq, Repr

/-- `max_attempts = 3` in `run`. -/
def max_attempts : Nat := 3

/-- `timeout_per_attempt = 12` (seconds) in `run`. -/
def timeout_per_attempt : Nat := 12

/-- How one round of the connection loop ends: a break with the call
ended or connected, a `continue` to the next round, or an
`asyncio.TimeoutError` raised by the `wait_condition` itself. -/
inductive RoundOutcome
  | endedBreak
  | connectedBreak
  | continueNext
  | timeoutError
deriving DecidableEq, Repr

/-- temporalio's `workflow.wait_condition(fn, timeout=...)`: it returns
normally (returning `None`) once the predicate becomes true within the
timeout, and raises `asyncio.TimeoutError` otherwise.  The signals that
arrive during the wait are applied to the state. -/
def waitConnectRound (r : RoundEnv) (s : WorkflowState) :
    Except String WorkflowState :=
  let s := applySignals s r.sigs
  if s.status = CallStatus.in_progress ∨ s.streaming_active = true ∨
      s.call_ended = true then .ok s
  else .error "asyncio.TimeoutError"

/-- One iteration of `for attempt in range(max_attempts)` in `run`: wait
for a positive or end signal.  A wait that times out raises
`asyncio.TimeoutError`, aborting the iteration (and the whole `try`
body) towards the `except` handler; a wait that returns normally found
its predicate true and is followed by the two break checks and then the
Twilio call-status tie-breaker block, kept here as written even though
the two breaks cover every normal return of the wait. -/
def connectRound (attempt : Nat) (r : RoundEnv) (s : WorkflowState) :
    WorkflowState × List Eff × RoundOutcome :=
  match waitConnectRound r s with
  | .error _ => (applySignals s r.sigs, [], .timeoutError)
  | .ok s =>
    if s.call_ended = true then (s, [], .endedBreak)
    else if s.status = CallStatus.in_progress ∨ s.streaming_active = true then
      (s, [], .connectedBreak)
    else if (s.call_sid.getD "") ≠ "" ∧ attempt + 1 < max_attempts then
      match s.call_sid with
      | some sid =>
        match r.poll with
        | .error _ => (s, [.get_twilio_call_status sid], .continueNext)
        | .ok api_status =>
          if api_status = "ringing" ∨ api_status = "queued" then
            (s, [.get_twilio_call_status sid], .continueNext)
          else if api_status = "in-progress" then
            ({ s with status := CallStatus.in_progress },
              [.get_twilio_call_status sid], .connectedBreak)
          else if terminalTwilioStatuses.contains api_status then
            ({ s with call_ended := true }, [.get_twilio_call_status sid],
              .endedBreak)
          else (s, [.get_twilio_call_status sid], .continueNext)
      | none => (s, [], .continueNext)
    else (s, [], .continueNext)

/-- How the connection loop as a whole ends: an explicit break with the
call connected or not, loop exhaustion (never connected), or an
uncaught `asyncio.TimeoutError` from a signal-less wait. -/
inductive LoopOutcome
  | connected
  | notConnected
  | timedOut
deriving DecidableEq, Repr

/-- The three rounds of the connection loop; `connected`/`notConnected`
reflect `call_actually_connected`, and a round's `timeoutError`
propagates out of the loop. -/
def connectLoop (env : RunEnv) (s : WorkflowState) :
    WorkflowState × List Eff × LoopOutcome :=
  match connectRound 0 env.round1 s with
  | (s1, t1, .endedBreak) => (s1, t1, .notConnected)
  | (s1, t1, .connectedBreak) => (s1, t1, .connected)
  | (s1, t1, .timeoutError) => (s1, t1, .timedOut)
  | (s1, t1, .continueNext) =>
    match connectRound 1 env.round2 s1 with
    | (s2, t2, .endedBreak) => (s2, t1 ++ t2, .notConnected)
    | (s2, t2, .connectedBreak) => (s2, t1 ++ t2, .connected)
    | (s2, t2, .timeoutError) => (s2, t1 ++ t2, .timedOut)
    | (s2, t2, .continueNext) =>
      match connectRound 2 env.round3 s2 with
      | (s3, t3, .endedBreak) => (s3, t1 ++ t2 ++ t3, .notConnected)
      | (s3, t3, .connectedBreak) => (s3, t1 ++ t2 ++ t3, .connected)
      | (s3, t3, .timeoutError) => (s3, t1 ++ t2 ++ t3, .timedOut)
      | (s3, t3, .continueNext) => (s3, t1 ++ t2 ++ t3, .notConnected)

/-- `VoiceCallWorkflow._cleanup_call`: terminate the Twilio call when a
call-sid is known, persist buffered transcripts when any exist, update
the call record with the final status, release the session-cache entry
with a 300-second grace TTL.  Any activity error propagates (to `run`'s
handler) with the effects attempted so far. -/
def cleanupCall (env : RunEnv) (s : WorkflowState) :
    Except String Unit × WorkflowState × List Eff :=
  let s := { s with ended_at := true }
  let term : Except String Unit × List Eff :=
    match s.call_sid with
    | some sid => (env.terminate_twilio_call, [Eff.terminate_twilio_call sid])
    | none => (.ok (), [])
  match term with
  | (.error e, tr) => (.error e, s, tr)
  | (.ok _, tr1) =>
    let save : Except String Unit × List Eff :=
      if s.transcript_segments.length ≠ 0 then
        (env.save_transcript_batch,
          [Eff.save_transcript_batch s.transcript_segments.length])
      else (.ok (), [])
    match save with
    | (.error e, tr2) => (.error e, s, tr1 ++ tr2)
    | (.ok _, tr2) =>
      match env.update_call_record with
      | .error e =>
        (.error e, s, tr1 ++ tr2 ++ [Eff.update_call_record s.status.value])
      | .ok _ =>
        let final_status :=
          if s.status = CallStatus.completed then "completed" else "failed"
        match env.cleanup_session_record with
        | .error e =>
          (.error e, s,
            tr1 ++ tr2 ++ [Eff.update_call_record s.status.value,
              Eff.cleanup_session_record final_status 300])
        | .ok _ =>
          (.ok (), s,
            tr1 ++ tr2 ++ [Eff.update_call_record s.status.value,
              Eff.cleanup_session_record final_status 300])

/-- The `except Exception` handler of `run`: force `FAILED`, run the
cleanup sequence, re-raise (an error raised by the cleanup itself
replaces the original, as in Python). -/
def exceptPath (env : RunEnv) (s : WorkflowState) (e : String)
    (tr : List Eff) : Except String CallWorkflowResult × WorkflowState × List Eff :=
  let s1 := { s with status := CallStatus.failed }
  match cleanupCall env s1 with
  | (.ok _, s2, tr2) => (.error e, s2, tr ++ tr2)
  | (.error e2, s2, tr2) => (.error e2, s2, tr ++ tr2)

/-- The tail of `run` after a connection loop that ended with a break
or with exhaustion: the never-connected determination (step "if not
call_actually_connected"), or the monitor wait (step 5) — which, being
a `wait_condition` with `timeout=max_duration_seconds`, returns
normally only when `call_ended` or `max_duration_reached` became true
and raises `asyncio.TimeoutError` on expiry, aborting to the `except`
handler — followed by `_cleanup_call` and `_build_result`; a cleanup
failure likewise escapes to the `except` handler. -/
def finishRun (env : RunEnv) (s1 : WorkflowState) (connected : Bool)
    (tr : List Eff) :
    Except String CallWorkflowResult × WorkflowState × List Eff :=
  if connected = false then
    let s2 :=
      if s1.status = CallStatus.initiated ∨ s1.status = CallStatus.ringing then
        { s1 with status := CallStatus.no_answer }
      else s1
    match cleanupCall env s2 with
    | (.ok _, s3, trD) => (.ok (buildResult s3), s3, tr ++ trD)
    | (.error e, s3, trD) => exceptPath env s3 e (tr ++ trD)
  else
    let s2 := applySignals s1 env.monitor_sigs
    if s2.call_ended = true ∨ s2.max_duration_reached = true then
      let s3 :=
        if s2.call_ended = false then
          { s2 with max_duration_reached := true, call_ended := true }
        else s2
      match cleanupCall env s3 with
      | (.ok _, s4, trD) => (.ok (buildResult s4), s4, tr ++ trD)
      | (.error e, s4, trD) => exceptPath env s4 e (tr ++ trD)
    else exceptPath env s2 "asyncio.TimeoutError" tr

/-- Dispatch on the connection loop's outcome: a propagated
`asyncio.TimeoutError` goes straight to the `except` handler of `run`;
otherwise the run continues with `finishRun`. -/
def afterLoop (env : RunEnv)
    (res : WorkflowState × List Eff × LoopOutcome) (tr : List Eff) :
    Except String CallWorkflowResult × WorkflowState × List Eff :=
  match res.2.2 with
  | .timedOut => exceptPath env res.1 "asyncio.TimeoutError" (tr ++ res.2.1)
  | .connected => finishRun env res.1 true (tr ++ res.2.1)
  | .notConnected => finishRun env res.1 false (tr ++ res.2.1)

/-- `VoiceCallWorkflow.run`: create the call record, the session-cache
record, place the Twilio call, run the connection loop, monitor until an
end signal or the maximum duration, and clean up on every exit path
(any `asyncio.TimeoutError` from a signal-less wait included, via the
`except` handler). -/
def runWorkflow (env : RunEnv) (input : CallWorkflowInput)
    (s0 : WorkflowState) :
    Except String CallWorkflowResult × WorkflowState × List Eff :=
  let s := { s0 with
    phone_number := input.phone_number
    greeting := input.greeting
    system_prompt := input.system_prompt
    started_at := true }
  match env.create_call_record with
  | .error e => exceptPath env s e [Eff.create_call_record]
  | .ok cid =>
    let s := { s with call_id := some cid }
    match env.create_session_record with
    | .error e =>
      exceptPath env s e [Eff.create_call_record, Eff.create_session_record]
    | .ok _ =>
      match env.initiate_twilio_call with
      | .error e =>
        exceptPath env s e
          [Eff.create_call_record, Eff.create_session_record,
            Eff.initiate_twilio_call]
      | .ok sid =>
        let s := { s with call_sid := some sid }
        let tr0 := [Eff.create_call_record, Eff.create_session_record,
          Eff.initiate_twilio_call]
        afterLoop env (connectLoop env s) tr0

/-! ## Monotonicity of the end flag and idempotence of terminal signals -/

theorem applySignal_mono (s : WorkflowState) (sig : Signal)
    (h : s.call_ended = true) : (applySignal s sig).call_ended = true := by
  cases sig with
  | streaming_started sid => simpa [applySignal] using h
  | streaming_ended => simp [applySignal, h]
  | transcripts_available ts => simpa [applySignal] using h
  | call_status_changed v =>
    simp only [applySignal]
    cases status_mapping v <;> split_ifs <;> simp_all
  | set_call_sid sid => simpa [applySignal] using h

theorem applySignals_mono (s : WorkflowState) (sigs : List Signal)
    (h : s.call_ended = true) : (applySignals s sigs).call_ended = true := by
  induction sigs generalizing s with
  | nil => exact h
  | cons sig t ih => exact ih (applySignal s sig) (applySignal_mono s sig h)

theorem connectRound_mono (attempt : Nat) (r : RoundEnv) (s : WorkflowState)
    (h : s.call_ended = true) : (connectRound attempt r s).1.call_ended = true := by
  have h2 := applySignals_mono s r.sigs h
  simp [connectRound, waitConnectRound, h2]

theorem connectLoop_mono (env : RunEnv) (s : WorkflowState)
    (h : s.call_ended = true) : (connectLoop env s).1.call_ended = true := by
  have h1 := applySignals_mono s env.round1.sigs h
  simp [connectLoop, connectRound, waitConnectRound, h1]

theorem cleanupCall_state (env : RunEnv) (s : WorkflowState) :
    (cleanupCall env s).2.1 = { s with ended_at := true } := by
  rcases hsid : s.call_sid with _ | sid <;>
    rcases hterm : env.terminate_twilio_call with e1 | u1 <;>
    rcases hsave : env.save_transcript_batch with e2 | u2 <;>
    rcases hupd : env.update_call_record with e3 | u3 <;>
    rcases hclean : env.cleanup_session_record with e4 | u4 <;>
    by_cases htr : s.transcript_segments.length ≠ 0 <;>
    simp [cleanupCall, hsid, hterm, hsave, hupd, hclean, htr]

theorem exceptPath_state (env : RunEnv) (s : WorkflowState) (e : String)
    (tr : List Eff) :
    (exceptPath env s e tr).2.1 =
      { s with status := CallStatus.failed, ended_at := true } := by
  unfold exceptPath
  have h := cleanupCall_state env { s with status := CallStatus.failed }
  rcases hC : cleanupCall env { s with status := CallStatus.failed } with
    ⟨res, s2, tr2⟩
  rw [hC] at h
  dsimp at h
  cases res <;> simp [hC, h]

theorem finishRun_mono (env : RunEnv) (s1 : WorkflowState) (c : Bool)
    (tr : List Eff) (h : s1.call_ended = true) :
    (finishRun env s1 c tr).2.1.call_ended = true := by
  have hexc : ∀ (s : WorkflowState), s.call_ended = true →
      ∀ e tr2, (exceptPath env s e tr2).2.1.call_ended = true := by
    intro s hs e tr2
    rw [exceptPath_state]
    exact hs
  unfold finishRun
  cases c with
  | false =>
    rw [if_pos rfl]
    set s2 := if s1.status = CallStatus.initiated ∨
        s1.status = CallStatus.ringing then
      { s1 with status := CallStatus.no_answer } else s1 with hs2def
    have hs2 : s2.call_ended = true := by
      rw [hs2def]
      split <;> exact h
    have hstate := cleanupCall_state env s2
    rcases hD : cleanupCall env s2 with ⟨res, s3, trD⟩
    rw [hD] at hstate
    dsimp at hstate
    simp only [hD]
    cases res with
    | ok u => simp [hstate, hs2]
    | error e => exact hexc s3 (by rw [hstate]; exact hs2) e (tr ++ trD)
  | true =>
    rw [if_neg (by simp)]
    have hs2 : (applySignals s1 env.monitor_sigs).call_ended = true :=
      applySignals_mono s1 env.monitor_sigs h
    dsimp only
    rw [if_pos (Or.inl hs2), if_neg (by simp [hs2])]
    have hstate := cleanupCall_state env (applySignals s1 env.monitor_sigs)
    rcases hD : cleanupCall env (applySignals s1 env.monitor_sigs) with
      ⟨res, s4, trD⟩
    rw [hD] at hstate
    dsimp at hstate
    try simp only [hD]
    cases res with
    | ok u => simp [hstate, hs2]
    | error e => exact hexc s4 (by rw [hstate]; exact hs2) e (tr ++ trD)

theorem afterLoop_mono (env : RunEnv)
    (res : WorkflowState × List Eff × LoopOutcome) (tr : List Eff)
    (h : res.1.call_ended = true) :
    (afterLoop env res tr).2.1.call_ended = true := by
  unfold afterLoop
  cases hres : res.2.2 with
  | timedOut =>
    dsimp only
    rw [exceptPath_state]
    exact h
  | connected =>
    dsimp only
    exact finishRun_mono env res.1 true (tr ++ res.2.1) h
  | notConnected =>
    dsimp only
    exact finishRun_mono env res.1 false (tr ++ res.2.1) h

theorem runWorkflow_mono (env : RunEnv) (input : CallWorkflowInput)
    (s0 : WorkflowState) (h : s0.call_ended = true) :
    (runWorkflow env input s0).2.1.call_ended = true := by
  have hexc : ∀ (s : WorkflowState), s.call_ended = true →
      ∀ e tr, (exceptPath env s e tr).2.1.call_ended = true := by
    intro s hs e tr
    rw [exceptPath_state]
    exact hs
  unfold runWorkflow
  cases hA : env.create_call_record with
  | error e =>
    refine hexc _ ?_ _ _
    exact h
  | ok cid =>
    cases hB : env.create_session_record with
    | error e =>
      refine hexc _ ?_ _ _
      exact h
    | ok u =>
      cases hC : env.initiate_twilio_call with
      | error e =>
        refine hexc _ ?_ _ _
        exact h
      | ok sid =>
        refine afterLoop_mono env _ _ ?_
        refine connectLoop_mono env _ ?_
        exact h

/-- **C3** — terminal-signal idempotence and monotonicity of the end
flag: once `call_ended` is true, (1) a repeated `streaming_ended`
leaves the state unchanged, (2) a repeated terminal
`call_status_changed` carrying the value the status already maps to
leaves the state unchanged, (3)–(4) no signal ever resets `call_ended`,
and (5)–(8) no step of `run` (connection rounds, the loop, cleanup, the
whole run) ever resets it.  Signal handlers invoke no activities in the
embedding (they are pure state maps), so a duplicate signal cannot
re-run cleanup, which only `run` performs. -/
theorem terminal_signal_idempotence :
    (∀ s : WorkflowState, s.call_ended = true →
      applySignal s Signal.streaming_ended = s) ∧
    (∀ (s : WorkflowState) (v : String), s.call_ended = true →
      terminalTwilioStatuses.contains v = true →
      status_mapping v = some s.status →
      applySignal s (Signal.call_status_changed v) = s) ∧
    (∀ (s : WorkflowState) (sig : Signal), s.call_ended = true →
      (applySignal s sig).call_ended = true) ∧
    (∀ (s : WorkflowState) (sigs : List Signal), s.call_ended = true →
      (applySignals s sigs).call_ended = true) ∧
    (∀ (attempt : Nat) (r : RoundEnv) (s : WorkflowState),
      s.call_ended = true → (connectRound attempt r s).1.call_ended = true) ∧
    (∀ (env : RunEnv) (s : WorkflowState), s.call_ended = true →
      (connectLoop env s).1.call_ended = true) ∧
    (∀ (env : RunEnv) (s : WorkflowState),
      (cleanupCall env s).2.1.call_ended = s.call_ended) ∧
    (∀ (env : RunEnv) (input : CallWorkflowInput) (s0 : WorkflowState),
      s0.call_ended = true → (runWorkflow env input s0).2.1.call_ended = true) := by
  refine ⟨?_, ?_, applySignal_mono, applySignals_mono, connectRound_mono,
    connectLoop_mono, ?_, runWorkflow_mono⟩
  · intro s h
    simp [applySignal, h]
  · intro s v h hterm hmap
    cases s
    simp only at h
    subst h
    simp [applySignal] at hmap ⊢
    simp [hmap, hterm]
  · intro env s
    rw [cleanupCall_state]

/-- Concrete instantiation of `terminal_signal_idempotence`: a state
that ended with status `COMPLETED` absorbs a duplicate
`streaming_ended` and a duplicate terminal `call_status_changed
"completed")` unchanged. -/
theorem terminal_signal_idempotence_witness :
    applySignal
        { initWorkflowState "wf" "run" with
          status := CallStatus.completed, call_ended := true }
        Signal.streaming_ended =
      { initWorkflowState "wf" "run" with
        status := CallStatus.completed, call_ended := true } ∧
    applySignal
        { initWorkflowState "wf" "run" with
          status := CallStatus.completed, call_ended := true }
        (Signal.call_status_changed "completed") =
      { initWorkflowState "wf" "run" with
        status := CallStatus.completed, call_ended := true } :=
  ⟨terminal_signal_idempotence.1
      { initWorkflowState "wf" "run" with
        status := CallStatus.completed, call_ended := true } rfl,
    terminal_signal_idempotence.2.1
      { initWorkflowState "wf" "run" with
        status := CallStatus.completed, call_ended := true } "completed" rfl
      (by decide) (by decide)⟩

/-! ## The connection-establishment protocol (C5) -/

/-- Recognizes a call-status poll among the run's effects. -/
def isPollEff : Eff → Bool
  | .get_twilio_call_status _ => true
  | _ => false

/-- A round in which no signal arrives and a poll, were one made, would
report the call still ringing. -/
def allTimeoutRound : RoundEnv := { sigs := [], poll := .ok "ringing" }

/-- An environment in which every connection round times out signal-less
and every activity succeeds. -/
def connectCexEnv : RunEnv :=
  { create_call_record := .ok "call-1"
    create_session_record := .ok ()
    initiate_twilio_call := .ok "CA123"
    round1 := allTimeoutRound
    round2 := allTimeoutRound
    round3 := allTimeoutRound
    monitor_sigs := []
    terminate_twilio_call := .ok ()
    save_transcript_batch := .ok ()
    update_call_record := .ok ()
    cleanup_session_record := .ok () }

theorem connectRound_no_poll (attempt : Nat) (r : RoundEnv)
    (s : WorkflowState) :
    (connectRound attempt r s).2.1 = [] ∧
    (connectRound attempt r s).2.2 ≠ RoundOutcome.continueNext := by
  unfold connectRound waitConnectRound
  dsimp only
  split_ifs with hP
  · dsimp only
    by_cases hend : (applySignals s r.sigs).call_ended = true
    · rw [if_pos hend]
      exact ⟨rfl, by simp⟩
    · by_cases hconn : (applySignals s r.sigs).status = CallStatus.in_progress ∨
          (applySignals s r.sigs).streaming_active = true
      · rw [if_neg hend, if_pos hconn]
        exact ⟨rfl, by simp⟩
      · rcases hP with h | h | h
        · exact absurd (Or.inl h) hconn
        · exact absurd (Or.inr h) hconn
        · exact absurd h hend
  · dsimp only
    exact ⟨rfl, by simp⟩

theorem connectLoop_no_poll (env : RunEnv) (s : WorkflowState) :
    (connectLoop env s).2.1 = [] := by
  have h1 := connectRound_no_poll 0 env.round1 s
  unfold connectLoop
  rcases hr1 : connectRound 0 env.round1 s with ⟨s1, t1, o1⟩
  rw [hr1] at h1
  obtain ⟨ht1, ho1⟩ := h1
  dsimp only at ht1 ho1
  subst ht1
  try simp only [hr1]
  cases o1 with
  | endedBreak => rfl
  | connectedBreak => rfl
  | timeoutError => rfl
  | continueNext => exact absurd rfl ho1

/-- **C5 (code bug)** — temporalio's `workflow.wait_condition` raises
`asyncio.TimeoutError` when its timeout elapses (it returns, with value
`None`, only once the predicate became true), so a signal-less
12-second connection round aborts `run` to the `except` handler; and
when the wait returns normally its predicate was true, so one of the
two breaks fires.  The Twilio call-status tie-breaker block — and with
it any later round — is therefore unreachable: no connection round ever
emits a poll or continues to the next round, the whole loop emits no
poll, and a call whose provider simply keeps ringing through the first
wait ends with a surfaced `asyncio.TimeoutError` and status `FAILED`
with zero polls, instead of the claimed up-to-three-round verification
with API tie-breaking. -/
theorem connect_timeout_no_poll :
    (∀ (attempt : Nat) (r : RoundEnv) (s : WorkflowState),
      (connectRound attempt r s).2.1 = [] ∧
      (connectRound attempt r s).2.2 ≠ RoundOutcome.continueNext) ∧
    (∀ (env : RunEnv) (s : WorkflowState), (connectLoop env s).2.1 = []) ∧
    (runWorkflow connectCexEnv
        { phone_number := "+15550100", greeting := "hello",
          system_prompt := none, max_duration_seconds := 1800 }
        (initWorkflowState "wf" "run")).1 =
      Except.error "asyncio.TimeoutError" ∧
    (runWorkflow connectCexEnv
        { phone_number := "+15550100", greeting := "hello",
          system_prompt := none, max_duration_seconds := 1800 }
        (initWorkflowState "wf" "run")).2.1.status = CallStatus.failed ∧
    (runWorkflow connectCexEnv
        { phone_number := "+15550100", greeting := "hello",
          system_prompt := none, max_duration_seconds := 1800 }
        (initWorkflowState "wf" "run")).2.2.filter isPollEff = [] :=
  ⟨connectRound_no_poll, connectLoop_no_poll, by decide, by decide, by decide⟩

/-! ## Cleanup on every exit path (C6) -/

/-- All four cleanup activities succeed (their post-retry outcomes). -/
def CleanupOk (env : RunEnv) : Prop :=
  env.terminate_twilio_call = .ok () ∧ env.save_transcript_batch = .ok () ∧
  env.update_call_record = .ok () ∧ env.cleanup_session_record = .ok ()

/-- The facts C6 needs about one run outcome: the call record was
updated and the session-cache entry released with the 300s grace TTL;
when any transcripts are buffered in the final state they were
persisted with `save_transcript_batch`; a surfaced error implies the
status was forced to `FAILED` (and the cleanup ran under that status);
and whenever a call-sid is known the telephone call was terminated. -/
def CleanupRan (out : Except String CallWorkflowResult × WorkflowState × List Eff) :
    Prop :=
  (∃ st, Eff.update_call_record st ∈ out.2.2) ∧
  (∃ fs, Eff.cleanup_session_record fs 300 ∈ out.2.2) ∧
  (out.2.1.transcript_segments.length ≠ 0 →
    Eff.save_transcript_batch out.2.1.transcript_segments.length ∈ out.2.2) ∧
  (∀ e, out.1 = Except.error e →
    out.2.1.status = CallStatus.failed ∧
    Eff.update_call_record "failed" ∈ out.2.2 ∧
    Eff.cleanup_session_record "failed" 300 ∈ out.2.2) ∧
  (∀ sid, out.2.1.call_sid = some sid →
    Eff.terminate_twilio_call sid ∈ out.2.2)

theorem cleanupCall_ok_trace (env : RunEnv) (s : WorkflowState)
    (h : CleanupOk env) :
    (cleanupCall env s).1 = .ok () ∧
    Eff.update_call_record s.status.value ∈ (cleanupCall env s).2.2 ∧
    Eff.cleanup_session_record
      (if s.status = CallStatus.completed then "completed" else "failed") 300 ∈
      (cleanupCall env s).2.2 ∧
    (s.transcript_segments.length ≠ 0 →
      Eff.save_transcript_batch s.transcript_segments.length ∈
        (cleanupCall env s).2.2) ∧
    (∀ sid, s.call_sid = some sid →
      Eff.terminate_twilio_call sid ∈ (cleanupCall env s).2.2) := by
  obtain ⟨h1, h2, h3, h4⟩ := h
  rcases hsid : s.call_sid with _ | sid <;>
    by_cases htr : s.transcript_segments.length ≠ 0 <;>
    simp [cleanupCall, hsid, h1, h2, h3, h4, htr]

theorem exceptPath_cleanupRan (env : RunEnv) (s : WorkflowState) (e : String)
    (tr : List Eff) (h : CleanupOk env) : CleanupRan (exceptPath env s e tr) := by
  have hc := cleanupCall_ok_trace env { s with status := CallStatus.failed } h
  have hst := cleanupCall_state env { s with status := CallStatus.failed }
  rcases hC : cleanupCall env { s with status := CallStatus.failed } with
    ⟨res, s2, tr2⟩
  rw [hC] at hc hst
  dsimp at hc hst
  obtain ⟨hres, hupd, hcln, hsave, hterm⟩ := hc
  subst hres
  unfold CleanupRan exceptPath
  simp only [hC]
  refine ⟨⟨"failed", ?_⟩, ⟨"failed", ?_⟩, ?_, ?_, ?_⟩
  · exact List.mem_append_right tr hupd
  · exact List.mem_append_right tr hcln
  · intro hlen
    rw [hst] at hlen ⊢
    dsimp at hlen ⊢
    exact List.mem_append_right tr (hsave hlen)
  · intro e2 he2
    refine ⟨by rw [hst], ?_, ?_⟩
    · exact List.mem_append_right tr hupd
    · exact List.mem_append_right tr hcln
  · intro sid hsid
    rw [hst] at hsid
    dsimp at hsid
    exact List.mem_append_right tr (hterm sid hsid)

theorem finishRun_cleanupRan (env : RunEnv) (s1 : WorkflowState) (c : Bool)
    (tr : List Eff) (h : CleanupOk env) : CleanupRan (finishRun env s1 c tr) := by
  unfold finishRun
  cases c with
  | false =>
    rw [if_pos rfl]
    set s2 := if s1.status = CallStatus.initiated ∨
        s1.status = CallStatus.ringing then
      { s1 with status := CallStatus.no_answer } else s1 with hs2def
    have hc := cleanupCall_ok_trace env s2 h
    have hst := cleanupCall_state env s2
    rcases hD : cleanupCall env s2 with ⟨res, s3, trD⟩
    rw [hD] at hc hst
    dsimp at hc hst
    obtain ⟨hres, hupd, hcln, hsave, hterm⟩ := hc
    subst hres
    simp only [hD]
    refine ⟨⟨s2.status.value, List.mem_append_right tr hupd⟩,
      ⟨_, List.mem_append_right tr hcln⟩, ?_, ?_, ?_⟩
    · intro hlen
      rw [hst] at hlen ⊢
      dsimp at hlen ⊢
      exact List.mem_append_right tr (hsave hlen)
    · intro e2 he2
      cases he2
    · intro sid hsid
      rw [hst] at hsid
      dsimp at hsid
      exact List.mem_append_right tr (hterm sid hsid)
  | true =>
    rw [if_neg (by simp)]
    dsimp only
    by_cases hcond : (applySignals s1 env.monitor_sigs).call_ended = true ∨
        (applySignals s1 env.monitor_sigs).max_duration_reached = true
    · rw [if_pos hcond]
      set s3 := if (applySignals s1 env.monitor_sigs).call_ended = false then
        { applySignals s1 env.monitor_sigs with
          max_duration_reached := true, call_ended := true }
      else applySignals s1 env.monitor_sigs with hs3def
      have hc := cleanupCall_ok_trace env s3 h
      have hst := cleanupCall_state env s3
      rcases hD : cleanupCall env s3 with ⟨res, s4, trD⟩
      rw [hD] at hc hst
      dsimp at hc hst
      obtain ⟨hres, hupd, hcln, hsave, hterm⟩ := hc
      subst hres
      simp only [hD]
      refine ⟨⟨s3.status.value, List.mem_append_right tr hupd⟩,
        ⟨_, List.mem_append_right tr hcln⟩, ?_, ?_, ?_⟩
      · intro hlen
        rw [hst] at hlen ⊢
        dsimp at hlen ⊢
        exact List.mem_append_right tr (hsave hlen)
      · intro e2 he2
        cases he2
      · intro sid hsid
        rw [hst] at hsid
        dsimp at hsid
        exact List.mem_append_right tr (hterm sid hsid)
    · rw [if_neg hcond]
      exact exceptPath_cleanupRan env _ "asyncio.TimeoutError" tr h

theorem afterLoop_cleanupRan (env : RunEnv)
    (res : WorkflowState × List Eff × LoopOutcome) (tr : List Eff)
    (h : CleanupOk env) : CleanupRan (afterLoop env res tr) := by
  unfold afterLoop
  cases hres : res.2.2 with
  | timedOut =>
    dsimp only
    exact exceptPath_cleanupRan env res.1 "asyncio.TimeoutError"
      (tr ++ res.2.1) h
  | connected =>
    dsimp only
    exact finishRun_cleanupRan env res.1 true (tr ++ res.2.1) h
  | notConnected =>
    dsimp only
    exact finishRun_cleanupRan env res.1 false (tr ++ res.2.1) h

theorem runWorkflow_cleanupRan (env : RunEnv) (input : CallWorkflowInput)
    (s0 : WorkflowState) (h : CleanupOk env) :
    CleanupRan (runWorkflow env input s0) := by
  unfold runWorkflow
  cases hA : env.create_call_record with
  | error e => exact exceptPath_cleanupRan env _ e _ h
  | ok cid =>
    cases hB : env.create_session_record with
    | error e => exact exceptPath_cleanupRan env _ e _ h
    | ok u =>
      cases hC : env.initiate_twilio_call with
      | error e => exact exceptPath_cleanupRan env _ e _ h
      | ok sid => exact afterLoop_cleanupRan env _ _ h

/-- **C6** — with the cleanup activities themselves succeeding, `run`
performs the cleanup sequence on every exit path (never-connected,
normal/max-duration, and exception paths — a signal-less wait's
`asyncio.TimeoutError` included — alike): the call record is updated
and the session-cache entry released with a 300-second grace TTL; any
transcripts buffered in the final state were persisted with
`save_transcript_batch`; if the run surfaces an error, the status was
forced to `FAILED` before cleanup (so the record update and cache
release carry "failed"); and whenever a call-sid is known, the
telephone call is terminated. -/
theorem workflow_failure_cleanup (env : RunEnv) (input : CallWorkflowInput)
    (s0 : WorkflowState) (h : CleanupOk env) :
    (∃ st, Eff.update_call_record st ∈ (runWorkflow env input s0).2.2) ∧
    (∃ fs, Eff.cleanup_session_record fs 300 ∈ (runWorkflow env input s0).2.2) ∧
    ((runWorkflow env input s0).2.1.transcript_segments.length ≠ 0 →
      Eff.save_transcript_batch
        (runWorkflow env input s0).2.1.transcript_segments.length ∈
        (runWorkflow env input s0).2.2) ∧
    (∀ e, (runWorkflow env input s0).1 = Except.error e →
      (runWorkflow env input s0).2.1.status = CallStatus.failed ∧
      Eff.update_call_record "failed" ∈ (runWorkflow env input s0).2.2 ∧
      Eff.cleanup_session_record "failed" 300 ∈ (runWorkflow env input s0).2.2) ∧
    (∀ sid, (runWorkflow env input s0).2.1.call_sid = some sid →
      Eff.terminate_twilio_call sid ∈ (runWorkflow env input s0).2.2) :=
  runWorkflow_cleanupRan env input s0 h

/-- An environment in which placing the call fails after retries while
all cleanup activities succeed. -/
def failEnv : RunEnv :=
  { connectCexEnv with initiate_twilio_call := .error "twilio unreachable" }

/-- A workflow input for the witness run. -/
def witnessInput : CallWorkflowInput :=
  { phone_number := "+15550100"
    greeting := "hello"
    system_prompt := none
    max_duration_seconds := 1800 }

/-- Concrete instantiation of `workflow_failure_cleanup`: when
`initiate_twilio_call` fails, the surfaced error leaves status `FAILED`
and the cleanup effects are in the trace. -/
theorem workflow_failure_cleanup_witness :
    (runWorkflow failEnv witnessInput (initWorkflowState "wf" "run")).2.1.status =
        CallStatus.failed ∧
      Eff.update_call_record "failed" ∈
        (runWorkflow failEnv witnessInput (initWorkflowState "wf" "run")).2.2 ∧
      Eff.cleanup_session_record "failed" 300 ∈
        (runWorkflow failEnv witnessInput (initWorkflowState "wf" "run")).2.2 :=
  (workflow_failure_cleanup failEnv witnessInput (initWorkflowState "wf" "run")
    ⟨rfl, rfl, rfl, rfl⟩).2.2.2.1 "twilio unreachable" (by decide)

/-! ## Codec engine (`utils/audio.py`)

NumPy float arithmetic is modelled over `ℝ`; `astype` casts to integer
types are truncation toward zero (`truncR`) followed, where the source
keeps an integer dtype, by the wraparound of that dtype.  `soxr.resample`
is a third-party native library; it is taken as a parameter
`soxr_resample` acting on the normalised `[-1, 1]` samples. -/

/-- Truncation toward zero (the C float→integer cast `astype` performs). -/
noncomputable def truncR (x : ℝ) : ℤ := if 0 ≤ x then ⌊x⌋ else ⌈x⌉

/-- `MULAW_MAX = 0x1FFF`. -/
def MULAW_MAX : ℕ := 8191

/-- `np.sign` on one sample. -/
noncomputable def npSign (x : ℝ) : ℝ := if x < 0 then -1 else if 0 < x then 1 else 0

/-- Int16 wraparound of `astype(np.int16)`. -/
def int16Wrap (z : ℤ) : ℤ := ((z + 32768) % 65536) - 32768

/-- One sample of `_ulaw_compress`: normalise to `[-1, 1]`, take the
logarithmic compression, scale to 7 bits (`astype(np.uint8)` truncates),
then apply the sign fold `np.where(sign < 0, 127 - mulaw, 255 - mulaw)`.
For int16 inputs the result lies in `[0, 255]`, so the uint8 dtype never
wraps. -/
noncomputable def ulaw_compress_sample (pcm : ℤ) : ℤ :=
  let pcm_float : ℝ := (pcm : ℝ) / 32768
  let a : ℝ := |pcm_float|
  let compressed : ℝ :=
    Real.log (1 + (MULAW_MAX : ℝ) * a) / Real.log (1 + (MULAW_MAX : ℝ))
  let mulaw : ℤ := truncR (compressed * 127)
  if npSign pcm_float < 0 then 127 - mulaw else 255 - mulaw

/-- One sample of `_ulaw_decompress`, kept **before** the final
`astype(np.int16)` so that the overflow claim (C9) is about the exact
mathematical value the cast receives. -/
noncomputable def ulaw_decompress_sample (b : ℤ) : ℤ :=
  let sign : ℝ := if 128 ≤ b then 1 else -1
  let m : ℝ := if 128 ≤ b then ((255 - b : ℤ) : ℝ) else ((127 - b : ℤ) : ℝ)
  let mf : ℝ := m / 127
  let pcm_float : ℝ :=
    sign * (Real.exp (mf * Real.log (1 + (MULAW_MAX : ℝ))) - 1) / (MULAW_MAX : ℝ)
  truncR (pcm_float * 32768)

/-- `_ulaw_compress` on a buffer (uint8 output bytes). -/
noncomputable def ulaw_compress (pcm : List ℤ) : List ℕ :=
  pcm.map (fun x => ((ulaw_compress_sample x) % 256).toNat)

/-- `_ulaw_decompress` on a buffer (int16 output samples, cast applied). -/
noncomputable def ulaw_decompress (mulaw : List ℕ) : List ℤ :=
  mulaw.map (fun b => int16Wrap (ulaw_decompress_sample (b : ℤ)))

/-- Little-endian signed 16-bit value of two bytes. -/
def int16OfBytes (lo hi : ℕ) : ℤ :=
  let v := (lo % 256) + 256 * (hi % 256)
  if v < 32768 then (v : ℤ) else (v : ℤ) - 65536

/-- Little-endian bytes of one int16 sample. -/
def bytesOfInt16 (x : ℤ) : List ℕ :=
  let u := (x % 65536).toNat
  [u % 256, u / 256]

def int16ListOfBytes : List ℕ → List ℤ
  | lo :: hi :: rest => int16OfBytes lo hi :: int16ListOfBytes rest
  | _ => []

/-- `reshape(-1, 3)` rows of a byte buffer. -/
def triples : List ℕ → List (ℕ × ℕ × ℕ)
  | a :: b :: c :: rest => (a, b, c) :: triples rest
  | _ => []

def bytesOfInt16List (xs : List ℤ) : List ℕ := (xs.map bytesOfInt16).flatten

/-- `np.frombuffer(_, dtype=np.int16)`: raises `ValueError` unless the
byte count is a multiple of the element size. -/
def frombuffer_int16 (bs : List ℕ) : Except String (List ℤ) :=
  if bs.length % 2 = 0 then .ok (int16ListOfBytes bs)
  else .error "buffer size must be a multiple of element size"

/-- Little-endian signed 32-bit value of four bytes. -/
def int32OfBytes (b0 b1 b2 b3 : ℕ) : ℤ :=
  let v := b0 % 256 + 256 * (b1 % 256) + 65536 * (b2 % 256) +
    16777216 * (b3 % 256)
  if v < 2147483648 then (v : ℤ) else (v : ℤ) - 4294967296

def int32ListOfBytes : List ℕ → List ℤ
  | a :: b :: c :: d :: rest => int32OfBytes a b c d :: int32ListOfBytes rest
  | _ => []

/-- `np.frombuffer(_, dtype=np.int32)`. -/
def frombuffer_int32 (bs : List ℕ) : Except String (List ℤ) :=
  if bs.length % 4 = 0 then .ok (int32ListOfBytes bs)
  else .error "buffer size must be a multiple of element size"

/-- Value of a character in the standard base64 alphabet. -/
def b64CharVal (c : Char) : Option ℕ :=
  if 'A' ≤ c ∧ c ≤ 'Z' then some (c.toNat - 65)
  else if 'a' ≤ c ∧ c ≤ 'z' then some (c.toNat - 97 + 26)
  else if '0' ≤ c ∧ c ≤ '9' then some (c.toNat - 48 + 52)
  else if c = '+' then some 62
  else if c = '/' then some 63
  else none

/-- Decode 6-bit groups to bytes (4 chars → 3 bytes, with the shortened
final group produced by padding). -/
def b64Groups : List ℕ → List ℕ
  | a :: b :: c :: d :: rest =>
    (a * 4 + b / 16) :: ((b % 16) * 16 + c / 4) :: ((c % 4) * 64 + d) ::
      b64Groups rest
  | [a, b] => [a * 4 + b / 16]
  | [a, b, c] => [a * 4 + b / 16, (b % 16) * 16 + c / 4]
  | _ => []

/-- `base64.b64decode` (default `validate=False`): characters outside
the alphabet are discarded, a data length of 1 mod 4 or missing padding
raises `binascii.Error`. -/
def b64decode (s : String) : Except String (List ℕ) :=
  let cs := s.data.filter (fun c => (b64CharVal c).isSome || c == '=')
  let ds := cs.takeWhile (fun c => ¬ c = '=')
  let vals := ds.filterMap b64CharVal
  let pad := cs.length - ds.length
  if vals.length % 4 = 1 then
    .error "Invalid base64-encoded string"
  else if ¬ (vals.length + pad) % 4 = 0 then
    .error "Incorrect padding"
  else
    .ok (b64Groups vals)

def b64CharOfVal (v : ℕ) : Char :=
  if v < 26 then Char.ofNat (65 + v)
  else if v < 52 then Char.ofNat (97 + v - 26)
  else if v < 62 then Char.ofNat (48 + v - 52)
  else if v = 62 then '+'
  else '/'

def b64encodeGroups : List ℕ → List Char
  | a :: b :: c :: rest =>
    b64CharOfVal (a / 4) :: b64CharOfVal ((a % 4) * 16 + b / 16) ::
      b64CharOfVal ((b % 16) * 4 + c / 64) :: b64CharOfVal (c % 64) ::
      b64encodeGroups rest
  | [a] => [b64CharOfVal (a / 4), b64CharOfVal ((a % 4) * 16), '=', '=']
  | [a, b] => [b64CharOfVal (a / 4), b64CharOfVal ((a % 4) * 16 + b / 16),
      b64CharOfVal ((b % 16) * 4), '=']
  | [] => []

/-- `base64.b64encode(..).decode("utf-8")`. -/
def b64encode (bs : List ℕ) : String := String.mk (b64encodeGroups bs)

/-- `AudioFormat` literal type. -/
inductive AudioFormat
  | mulaw
  | pcm8
  | pcm16
  | pcm24
  | pcm32
deriving DecidableEq, Repr

/-- `audio_data: bytes | str` — a base64 string or raw bytes. -/
inductive AudioData
  | bytes (bs : List ℕ)
  | b64 (s : String)
deriving DecidableEq, Repr

/-- Normalise samples and run the resampler, converting back to int16
(`(resampled * 32768.0).astype(np.int16)`). -/
noncomputable def resampleInt16 (soxr_resample : List ℝ → ℕ → ℕ → List ℝ)
    (xs : List ℤ) (from_rate to_rate : ℕ) : List ℤ :=
  (soxr_resample (xs.map (fun v => (v : ℝ) / 32768)) from_rate to_rate).map
    (fun v => int16Wrap (truncR (v * 32768)))

/-- `convert_audio`: decode base64 when given a string, convert the
source format to 16-bit PCM, resample when the rates differ, convert to
the target format.  (On the pcm24 load the source shifts a uint8 NumPy
column; the value model here uses plain integer arithmetic — the claims
do not depend on those sample values.) -/
noncomputable def convert_audio (soxr_resample : List ℝ → ℕ → ℕ → List ℝ)
    (audio_data : AudioData) (from_format to_format : AudioFormat)
    (from_rate to_rate : ℕ) : Except String (List ℕ) := do
  let raw ←
    match audio_data with
    | .bytes bs => pure bs
    | .b64 s => b64decode s
  let pcm_data ←
    match from_format with
    | .mulaw => pure (bytesOfInt16List (ulaw_decompress raw))
    | .pcm8 =>
      pure (bytesOfInt16List (raw.map (fun v => ((v % 256 : ℕ) - 128 : ℤ) * 256)))
    | .pcm16 => pure raw
    | .pcm24 =>
      if raw.length % 3 = 0 then
        pure (bytesOfInt16List ((triples raw).map
          (fun t => int16Wrap ((t.2.1 % 256 : ℕ) * 256 + (t.2.2 % 256 : ℕ)))))
      else .error "cannot reshape array"
    | .pcm32 => do
      let pcm32_array ← frombuffer_int32 raw
      pure (bytesOfInt16List (pcm32_array.map (fun v => Int.fdiv v 65536)))
  let pcm_data2 ←
    if from_rate ≠ to_rate then do
      let pcm_array ← frombuffer_int16 pcm_data
      pure (bytesOfInt16List (resampleInt16 soxr_resample pcm_array
        from_rate to_rate))
    else pure pcm_data
  let pcm16_array ← frombuffer_int16 pcm_data2
  match to_format with
  | .mulaw => pure (ulaw_compress pcm16_array)
  | .pcm8 =>
    pure (pcm16_array.map (fun v => ((Int.fdiv v 256 + 128) % 256).toNat))
  | .pcm16 => pure pcm_data2
  | .pcm24 =>
    pure ((pcm16_array.map (fun v =>
      [0, ((Int.fdiv v 256) % 256).toNat, (v % 256).toNat])).flatten)
  | .pcm32 =>
    pure ((pcm16_array.map (fun v =>
      [0, 0, (v % 256).toNat, ((Int.fdiv v 256) % 256).toNat])).flatten)

/-- `twilio_to_gemini`: base64 mu-law at 8kHz to PCM16 bytes at 16kHz. -/
noncomputable def twilio_to_gemini (soxr_resample : List ℝ → ℕ → ℕ → List ℝ)
    (mulaw_base64 : String) : Except String (List ℕ) := do
  let mulaw_data ← b64decode mulaw_base64
  let pcm_array := ulaw_decompress mulaw_data
  pure (bytesOfInt16List (resampleInt16 soxr_resample pcm_array 8000 16000))

/-- `gemini_to_twilio`: PCM16 bytes at 24kHz to base64 mu-law at 8kHz. -/
noncomputable def gemini_to_twilio (soxr_resample : List ℝ → ℕ → ℕ → List ℝ)
    (pcm_24khz : List ℕ) : Except String String := do
  let pcm_array ← frombuffer_int16 pcm_24khz
  let pcm_8khz := resampleInt16 soxr_resample pcm_array 24000 8000
  pure (b64encode (ulaw_compress pcm_8khz))

/-! ## Codec failure behavior (C7) -/

/-- **C7 (counterexample)** — `gemini_to_twilio` on a malformed (odd
byte count) PCM16 buffer raises (`np.frombuffer` `ValueError`) instead
of returning empty output; the resampler is irrelevant to the failure. -/
theorem codec_raises_cex :
    gemini_to_twilio (fun xs _ _ => xs) [0] =
      Except.error "buffer size must be a multiple of element size" := by
  rfl

set_option maxHeartbeats 2000000 in
/-- **C7 (amended)** — empty input yields empty output for
`convert_audio` (bytes or base64 input, any formats and rates, given a
resampler that maps an empty buffer to an empty buffer, as soxr does),
`twilio_to_gemini` and `gemini_to_twilio`; but malformed input raises —
an odd-length 16-bit buffer, or base64 text whose data-character count
is 1 mod 4 — rather than returning empty; callers (the audio bridge)
contain the error. -/
theorem codec_error_behavior :
    (∀ r : List ℝ → ℕ → ℕ → List ℝ, (∀ a b, r [] a b = []) →
      (∀ ff tf fr tr, convert_audio r (.bytes []) ff tf fr tr = .ok []) ∧
      (∀ ff tf fr tr, convert_audio r (.b64 "") ff tf fr tr = .ok []) ∧
      twilio_to_gemini r "" = .ok [] ∧
      gemini_to_twilio r [] = .ok "") ∧
    (∀ r : List ℝ → ℕ → ℕ → List ℝ,
      convert_audio r (.bytes [0]) .pcm16 .mulaw 8000 8000 =
        .error "buffer size must be a multiple of element size" ∧
      twilio_to_gemini r "A" = .error "Invalid base64-encoded string" ∧
      gemini_to_twilio r [0] =
        .error "buffer size must be a multiple of element size") := by
  constructor
  · intro r hr
    have hbytes : ∀ ff tf fr tr,
        convert_audio r (.bytes []) ff tf fr tr = .ok [] := by
      intro ff tf fr tr
      cases ff <;> cases tf <;> by_cases h : fr = tr <;>
        simp [convert_audio, h, frombuffer_int16, frombuffer_int32,
          int16ListOfBytes, int32ListOfBytes, triples, ulaw_decompress,
          ulaw_compress, bytesOfInt16List, resampleInt16, hr, b64Groups,
          Except.bind, Except.map, Except.pure, bind, Functor.map, pure]
    have hb64 : b64decode "" = .ok [] := rfl
    refine ⟨hbytes, ?_, ?_, ?_⟩
    · intro ff tf fr tr
      have := hbytes ff tf fr tr
      simpa [convert_audio, hb64] using this
    · simp [twilio_to_gemini, hb64, ulaw_decompress, resampleInt16, hr,
        bytesOfInt16List, Except.bind, Except.map, Except.pure, bind, Functor.map, pure]
    · simp [gemini_to_twilio, frombuffer_int16, int16ListOfBytes,
        resampleInt16, hr, ulaw_compress, b64encode, b64encodeGroups,
        Except.bind, Except.map, Except.pure, bind, Functor.map, pure]
  · intro r
    exact ⟨rfl, rfl, rfl⟩

/-- Concrete instantiation of `codec_error_behavior` with the identity
resampler: the empty-input cases evaluate to empty outputs. -/
theorem codec_error_behavior_witness :
    twilio_to_gemini (fun xs _ _ => xs) "" = .ok [] ∧
      gemini_to_twilio (fun xs _ _ => xs) [] = .ok "" ∧
      convert_audio (fun xs _ _ => xs) (.bytes []) .mulaw .pcm16 8000 16000 =
        .ok [] :=
  ⟨(codec_error_behavior.1 (fun xs _ _ => xs) (fun _ _ => rfl)).2.2.1,
    (codec_error_behavior.1 (fun xs _ _ => xs) (fun _ _ => rfl)).2.2.2,
    (codec_error_behavior.1 (fun xs _ _ => xs) (fun _ _ => rfl)).1
      .mulaw .pcm16 8000 16000⟩

/-! ## Mu-law round-trip range safety (C9) -/

theorem truncR_int16_bounds (y : ℝ) (h1 : -32768 ≤ y) (h2 : y < 32768) :
    -32768 ≤ truncR y ∧ truncR y ≤ 32767 := by
  unfold truncR
  split
  · rename_i hy
    refine ⟨le_trans (by norm_num) (Int.floor_nonneg.mpr hy), ?_⟩
    have h3 : ⌊y⌋ < (32768 : ℤ) := Int.floor_lt.mpr (by exact_mod_cast h2)
    omega
  · rename_i hy
    push_neg at hy
    constructor
    · have h4 := Int.le_ceil y
      have h5 : ((-32768 : ℤ) : ℝ) ≤ (⌈y⌉ : ℝ) := by
        push_cast
        linarith
      exact_mod_cast h5
    · have h6 : ⌈y⌉ ≤ (0 : ℤ) := Int.ceil_le.mpr (by push_cast; linarith)
      omega

theorem truncR_compress_range (a : ℝ) (ha0 : 0 ≤ a) (ha1 : a ≤ 1) :
    0 ≤ truncR (Real.log (1 + (MULAW_MAX : ℝ) * a) /
        Real.log (1 + (MULAW_MAX : ℝ)) * 127) ∧
      truncR (Real.log (1 + (MULAW_MAX : ℝ) * a) /
        Real.log (1 + (MULAW_MAX : ℝ)) * 127) ≤ 127 := by
  have hM : (MULAW_MAX : ℝ) = 8191 := by norm_num [MULAW_MAX]
  have hL : 0 < Real.log (1 + (MULAW_MAX : ℝ)) := by
    rw [hM]
    exact Real.log_pos (by norm_num)
  have hc0 : 0 ≤ Real.log (1 + (MULAW_MAX : ℝ) * a) /
      Real.log (1 + (MULAW_MAX : ℝ)) :=
    div_nonneg (Real.log_nonneg (by nlinarith)) hL.le
  have hc1 : Real.log (1 + (MULAW_MAX : ℝ) * a) /
      Real.log (1 + (MULAW_MAX : ℝ)) ≤ 1 := by
    rw [div_le_one hL]
    exact Real.log_le_log (by nlinarith) (by nlinarith)
  unfold truncR
  rw [if_pos (mul_nonneg hc0 (by norm_num))]
  constructor
  · exact Int.floor_nonneg.mpr (mul_nonneg hc0 (by norm_num))
  · have h7 : ⌊Real.log (1 + (MULAW_MAX : ℝ) * a) /
        Real.log (1 + (MULAW_MAX : ℝ)) * 127⌋ ≤ ⌊(127 : ℝ)⌋ :=
      Int.floor_le_floor (by nlinarith)
    have h8 : ⌊(127 : ℝ)⌋ = 127 := by norm_num
    omega

theorem truncR_compress_lt (a : ℝ) (ha0 : 0 ≤ a) (ha1 : a < 1) :
    truncR (Real.log (1 + (MULAW_MAX : ℝ) * a) /
      Real.log (1 + (MULAW_MAX : ℝ)) * 127) ≤ 126 := by
  have hM : (MULAW_MAX : ℝ) = 8191 := by norm_num [MULAW_MAX]
  have hL : 0 < Real.log (1 + (MULAW_MAX : ℝ)) := by
    rw [hM]
    exact Real.log_pos (by norm_num)
  have hc0 : 0 ≤ Real.log (1 + (MULAW_MAX : ℝ) * a) /
      Real.log (1 + (MULAW_MAX : ℝ)) :=
    div_nonneg (Real.log_nonneg (by nlinarith)) hL.le
  have hc1 : Real.log (1 + (MULAW_MAX : ℝ) * a) /
      Real.log (1 + (MULAW_MAX : ℝ)) < 1 := by
    rw [div_lt_one hL]
    exact Real.log_lt_log (by nlinarith) (by nlinarith)
  unfold truncR
  rw [if_pos (mul_nonneg hc0 (by norm_num))]
  have h7 : ⌊Real.log (1 + (MULAW_MAX : ℝ) * a) /
      Real.log (1 + (MULAW_MAX : ℝ)) * 127⌋ < (127 : ℤ) :=
    Int.floor_lt.mpr (by push_cast; nlinarith)
  omega

/-- For an int16 input, the mu-law byte lands in `[129, 255]` for a
non-negative sample and in `[0, 127]` for a negative one (the dead
value 128 is never produced, and the uint8 range is never exceeded). -/
theorem ulaw_compress_sample_range (x : ℤ) (h1 : -32768 ≤ x) (h2 : x ≤ 32767) :
    (0 ≤ x ∧ 129 ≤ ulaw_compress_sample x ∧ ulaw_compress_sample x ≤ 255) ∨
    (x < 0 ∧ 0 ≤ ulaw_compress_sample x ∧ ulaw_compress_sample x ≤ 127) := by
  simp only [ulaw_compress_sample]
  rcases lt_or_le x 0 with hx | hx
  · right
    have hxf : (x : ℝ) / 32768 < 0 :=
      div_neg_of_neg_of_pos (by exact_mod_cast hx) (by norm_num)
    rw [if_pos (by unfold npSign; rw [if_pos hxf]; norm_num)]
    have hx1 : (-32768 : ℝ) ≤ (x : ℝ) := by exact_mod_cast h1
    have hx2 : (x : ℝ) ≤ 32767 := by exact_mod_cast h2
    have ha1 : |(x : ℝ) / 32768| ≤ 1 := by
      rw [abs_le]
      constructor
      · rw [le_div_iff₀ (by norm_num : (0 : ℝ) < 32768)]
        linarith
      · rw [div_le_one (by norm_num : (0 : ℝ) < 32768)]
        linarith
    obtain ⟨hA, hB⟩ := truncR_compress_range _ (abs_nonneg _) ha1
    exact ⟨hx, by omega, by omega⟩
  · left
    have hxf : 0 ≤ (x : ℝ) / 32768 :=
      div_nonneg (by exact_mod_cast hx) (by norm_num)
    rw [if_neg (by unfold npSign; rw [if_neg (not_lt.mpr hxf)]; split <;> norm_num)]
    have hx2 : (x : ℝ) ≤ 32767 := by exact_mod_cast h2
    have ha1 : |(x : ℝ) / 32768| < 1 := by
      rw [abs_of_nonneg hxf, div_lt_one (by norm_num : (0 : ℝ) < 32768)]
      linarith
    obtain ⟨hA, hB⟩ := truncR_compress_range _ (abs_nonneg _) ha1.le
    have hC := truncR_compress_lt _ (abs_nonneg _) ha1
    exact ⟨hx, by omega, by omega⟩

/-- Decoding a mu-law byte of the non-negative fold (`b ∈ [129, 255]`)
lands in `[0, 32767]` before the int16 cast. -/
theorem ulaw_decompress_sample_pos_range (b : ℤ) (hb1 : 129 ≤ b)
    (hb2 : b ≤ 255) :
    0 ≤ ulaw_decompress_sample b ∧ ulaw_decompress_sample b ≤ 32767 := by
  have hM : (MULAW_MAX : ℝ) = 8191 := by norm_num [MULAW_MAX]
  have hL : 0 < Real.log (1 + (MULAW_MAX : ℝ)) := by
    rw [hM]
    exact Real.log_pos (by norm_num)
  have hexpL : Real.exp (Real.log (1 + (MULAW_MAX : ℝ))) = 8192 := by
    rw [hM]
    rw [show (1 : ℝ) + 8191 = 8192 by norm_num]
    exact Real.exp_log (by norm_num)
  simp only [ulaw_decompress_sample]
  rw [if_pos (by omega : (128 : ℤ) ≤ b), if_pos (by omega : (128 : ℤ) ≤ b)]
  have hmf0 : 0 ≤ ((255 - b : ℤ) : ℝ) / 127 := by
    apply div_nonneg _ (by norm_num)
    have : (0 : ℤ) ≤ 255 - b := by omega
    exact_mod_cast this
  have hmf1 : ((255 - b : ℤ) : ℝ) / 127 < 1 := by
    rw [div_lt_one (by norm_num : (0 : ℝ) < 127)]
    have : (255 - b : ℤ) ≤ 126 := by omega
    calc ((255 - b : ℤ) : ℝ) ≤ 126 := by exact_mod_cast this
    _ < 127 := by norm_num
  have hE1 : (1 : ℝ) ≤ Real.exp (((255 - b : ℤ) : ℝ) / 127 *
      Real.log (1 + (MULAW_MAX : ℝ))) :=
    Real.one_le_exp (mul_nonneg hmf0 hL.le)
  have hE2 : Real.exp (((255 - b : ℤ) : ℝ) / 127 *
      Real.log (1 + (MULAW_MAX : ℝ))) < 8192 := by
    rw [← hexpL]
    exact Real.exp_lt_exp.mpr (by nlinarith)
  have h0 : (0 : ℝ) ≤ 1 * (Real.exp (((255 - b : ℤ) : ℝ) / 127 *
      Real.log (1 + (MULAW_MAX : ℝ))) - 1) / (MULAW_MAX : ℝ) * 32768 := by
    rw [one_mul]
    apply mul_nonneg _ (by norm_num)
    apply div_nonneg (by linarith)
    rw [hM]
    norm_num
  have hlt : 1 * (Real.exp (((255 - b : ℤ) : ℝ) / 127 *
      Real.log (1 + (MULAW_MAX : ℝ))) - 1) / (MULAW_MAX : ℝ) * 32768 <
      32768 := by
    rw [one_mul]
    have hdiv : (Real.exp (((255 - b : ℤ) : ℝ) / 127 *
        Real.log (1 + (MULAW_MAX : ℝ))) - 1) / (MULAW_MAX : ℝ) < 1 := by
      rw [div_lt_one (by rw [hM]; norm_num)]
      linarith [hM.le, hM.ge]
    have hmul := mul_lt_mul_of_pos_right hdiv
      (show (0 : ℝ) < 32768 by norm_num)
    linarith
  have hbounds := truncR_int16_bounds _ (le_trans (by norm_num) h0) hlt
  constructor
  · unfold truncR
    rw [if_pos h0]
    exact Int.floor_nonneg.mpr h0
  · exact hbounds.2

/-- Decoding a mu-law byte of the negative fold (`b ∈ [0, 127]`) lands
in `[-32768, 0]` before the int16 cast. -/
theorem ulaw_decompress_sample_neg_range (b : ℤ) (hb1 : 0 ≤ b)
    (hb2 : b ≤ 127) :
    -32768 ≤ ulaw_decompress_sample b ∧ ulaw_decompress_sample b ≤ 32767 := by
  have hM : (MULAW_MAX : ℝ) = 8191 := by norm_num [MULAW_MAX]
  have hL : 0 < Real.log (1 + (MULAW_MAX : ℝ)) := by
    rw [hM]
    exact Real.log_pos (by norm_num)
  have hexpL : Real.exp (Real.log (1 + (MULAW_MAX : ℝ))) = 8192 := by
    rw [hM]
    rw [show (1 : ℝ) + 8191 = 8192 by norm_num]
    exact Real.exp_log (by norm_num)
  simp only [ulaw_decompress_sample]
  rw [if_neg (by omega : ¬ (128 : ℤ) ≤ b), if_neg (by omega : ¬ (128 : ℤ) ≤ b)]
  have hmf0 : 0 ≤ ((127 - b : ℤ) : ℝ) / 127 := by
    apply div_nonneg _ (by norm_num)
    have : (0 : ℤ) ≤ 127 - b := by omega
    exact_mod_cast this
  have hmf1 : ((127 - b : ℤ) : ℝ) / 127 ≤ 1 := by
    rw [div_le_one (by norm_num : (0 : ℝ) < 127)]
    have : (127 - b : ℤ) ≤ 127 := by omega
    calc ((127 - b : ℤ) : ℝ) ≤ 127 := by exact_mod_cast this
    _ ≤ 127 := le_refl _
  have hE1 : (1 : ℝ) ≤ Real.exp (((127 - b : ℤ) : ℝ) / 127 *
      Real.log (1 + (MULAW_MAX : ℝ))) :=
    Real.one_le_exp (mul_nonneg hmf0 hL.le)
  have hE2 : Real.exp (((127 - b : ℤ) : ℝ) / 127 *
      Real.log (1 + (MULAW_MAX : ℝ))) ≤ 8192 := by
    rw [← hexpL]
    exact Real.exp_le_exp.mpr (by nlinarith)
  have hring : (-1 : ℝ) * (Real.exp (((127 - b : ℤ) : ℝ) / 127 *
      Real.log (1 + (MULAW_MAX : ℝ))) - 1) / (MULAW_MAX : ℝ) * 32768 =
      -((Real.exp (((127 - b : ℤ) : ℝ) / 127 *
        Real.log (1 + (MULAW_MAX : ℝ))) - 1) / (MULAW_MAX : ℝ) * 32768) := by
    ring
  have hub : (-1 : ℝ) * (Real.exp (((127 - b : ℤ) : ℝ) / 127 *
      Real.log (1 + (MULAW_MAX : ℝ))) - 1) / (MULAW_MAX : ℝ) * 32768 ≤ 0 := by
    rw [hring]
    have hd : 0 ≤ (Real.exp (((127 - b : ℤ) : ℝ) / 127 *
        Real.log (1 + (MULAW_MAX : ℝ))) - 1) / (MULAW_MAX : ℝ) := by
      apply div_nonneg (by linarith)
      rw [hM]
      norm_num
    have := mul_nonneg hd (show (0 : ℝ) ≤ 32768 by norm_num)
    linarith
  have hlb : (-32768 : ℝ) ≤ (-1 : ℝ) * (Real.exp (((127 - b : ℤ) : ℝ) / 127 *
      Real.log (1 + (MULAW_MAX : ℝ))) - 1) / (MULAW_MAX : ℝ) * 32768 := by
    rw [hring]
    have hd : (Real.exp (((127 - b : ℤ) : ℝ) / 127 *
        Real.log (1 + (MULAW_MAX : ℝ))) - 1) / (MULAW_MAX : ℝ) ≤ 1 := by
      rw [div_le_one (by rw [hM]; norm_num)]
      linarith [hM.le, hM.ge]
    have := mul_le_mul_of_nonneg_right hd (show (0 : ℝ) ≤ 32768 by norm_num)
    linarith
  exact truncR_int16_bounds _ hlb (lt_of_le_of_lt hub (by norm_num))

/-- **C9** — round-trip range safety of the companding at full scale:
for every int16 sample, the value `decode(encode(x))` computes before
its final `astype(np.int16)` lies within the signed 16-bit range, so
neither the uint8 cast inside `encode` nor the int16 cast inside
`decode` ever wraps; consequently the buffer-level round trip on `[x]`
equals exactly that in-range value. -/
theorem ulaw_roundtrip_no_overflow (x : ℤ) (h1 : -32768 ≤ x)
    (h2 : x ≤ 32767) :
    (-32768 ≤ ulaw_decompress_sample (ulaw_compress_sample x) ∧
      ulaw_decompress_sample (ulaw_compress_sample x) ≤ 32767) ∧
    ulaw_decompress (ulaw_compress [x]) =
      [ulaw_decompress_sample (ulaw_compress_sample x)] := by
  have hrange :
      (129 ≤ ulaw_compress_sample x ∧ ulaw_compress_sample x ≤ 255) ∨
      (0 ≤ ulaw_compress_sample x ∧ ulaw_compress_sample x ≤ 127) := by
    rcases ulaw_compress_sample_range x h1 h2 with ⟨_, hb1, hb2⟩ | ⟨_, hb1, hb2⟩
    · exact Or.inl ⟨hb1, hb2⟩
    · exact Or.inr ⟨hb1, hb2⟩
  have hbyte0 : 0 ≤ ulaw_compress_sample x := by
    rcases hrange with ⟨hb1, _⟩ | ⟨hb1, _⟩ <;> omega
  have hbyte255 : ulaw_compress_sample x ≤ 255 := by
    rcases hrange with ⟨_, hb2⟩ | ⟨_, hb2⟩ <;> omega
  have hbounds : -32768 ≤ ulaw_decompress_sample (ulaw_compress_sample x) ∧
      ulaw_decompress_sample (ulaw_compress_sample x) ≤ 32767 := by
    rcases hrange with ⟨hb1, hb2⟩ | ⟨hb1, hb2⟩
    · have h := ulaw_decompress_sample_pos_range _ hb1 hb2
      exact ⟨le_trans (by norm_num) h.1, h.2⟩
    · exact ulaw_decompress_sample_neg_range _ hb1 hb2
  refine ⟨hbounds, ?_⟩
  have hmod : ulaw_compress_sample x % 256 = ulaw_compress_sample x := by
    omega
  have hcast : (((ulaw_compress_sample x % 256).toNat : ℤ)) =
      ulaw_compress_sample x := by
    rw [hmod, Int.toNat_of_nonneg hbyte0]
  have hwrap : int16Wrap (ulaw_decompress_sample (ulaw_compress_sample x)) =
      ulaw_decompress_sample (ulaw_compress_sample x) := by
    unfold int16Wrap
    omega
  simp [ulaw_compress, ulaw_decompress, hcast, hwrap]

/-- Concrete instantiation of `ulaw_roundtrip_no_overflow` at the
full-scale extremes `32767` and `-32768`. -/
theorem ulaw_roundtrip_no_overflow_witness :
    (-32768 ≤ ulaw_decompress_sample (ulaw_compress_sample 32767) ∧
      ulaw_decompress_sample (ulaw_compress_sample 32767) ≤ 32767) ∧
    (-32768 ≤ ulaw_decompress_sample (ulaw_compress_sample (-32768)) ∧
      ulaw_decompress_sample (ulaw_compress_sample (-32768)) ≤ 32767) :=
  ⟨(ulaw_roundtrip_no_overflow 32767 (by norm_num) (by norm_num)).1,
    (ulaw_roundtrip_no_overflow (-32768) (by norm_num) (by norm_num)).1⟩
